import Mathlib

set_option maxRecDepth 10000

/-!
Verification development for the PhishShield heuristic phishing-detection
engines (backend/engines/*.py) and their risk aggregator.

Scores are modelled as exact rationals (`ℚ`).  Python's
`int(x * 10000) / 10000.0` truncation is modelled by `roundScore`; every
call site applies it to a non-negative value, where truncation toward zero
agrees with the floor.  Regular-expression feature extraction over raw
strings is not re-implemented: each engine's scoring pipeline is embedded
over a record of the extracted feature values, exactly as the Python
scoring code consumes them.
-/

/-- `int(x * 10000) / 10000.0` — truncate-toward-zero rounding to 4 decimal
places, as performed at every score-producing site (all arguments are
non-negative there, so floor coincides with Python `int`). -/
def roundScore (x : ℚ) : ℚ := (Int.floor (x * 10000) : ℚ) / 10000

lemma roundScore_nonneg {x : ℚ} (hx : 0 ≤ x) : 0 ≤ roundScore x := by
  unfold roundScore
  have h : (0 : ℤ) ≤ Int.floor (x * 10000) := by
    apply Int.floor_nonneg.mpr
    positivity
  positivity

lemma roundScore_le (x : ℚ) : roundScore x ≤ x := by
  unfold roundScore
  have h := Int.floor_le (x * 10000)
  linarith

lemma roundScore_le_one {x : ℚ} (hx : x ≤ 1) : roundScore x ≤ 1 :=
  le_trans (roundScore_le x) hx

/-- Rounding is the identity on exact twentieths (all of the domain engine's
score constants): `roundScore (n/20) = n/20`. -/
lemma roundScore_twentieth (n : ℕ) : roundScore ((n : ℚ) / 20) = (n : ℚ) / 20 := by
  unfold roundScore
  have h : ((n : ℚ) / 20) * 10000 = ((500 * n : ℕ) : ℚ) := by
    push_cast
    ring
  rw [h, Int.floor_natCast]
  push_cast
  ring

/- ======================================================================
   Risk aggregator — backend/engines/risk_scorer.py
   ====================================================================== -/

/-- One engine's result as consumed by `RiskScorer.calculate_risk`
(the `engine`, `score` and `reasons` keys are the ones the aggregator reads). -/
structure EngineResult where
  engine : String
  score : ℚ
  reasons : List String
deriving DecidableEq

/-- `ENGINE_WEIGHTS` (risk_scorer.py lines 16-21). -/
def ENGINE_WEIGHTS : List (String × ℚ) :=
  [("url_analyzer", 0.30), ("nlp_engine", 0.25),
   ("domain_checker", 0.25), ("visual_engine", 0.20)]

/-- `ENGINE_WEIGHTS.get(engine, 0.15)`. -/
def engineWeight (engine : String) : ℚ :=
  ((ENGINE_WEIGHTS.find? (fun p => p.1 == engine)).map Prod.snd).getD 0.15

/-- One band of `RISK_LEVELS` (risk_scorer.py lines 8-14); the display-only
color and icon strings are omitted. -/
structure RiskBand where
  lo : ℚ
  hi : ℚ
  level : String
deriving DecidableEq

/-- `RISK_LEVELS`, in dict insertion order. -/
def RISK_LEVELS : List RiskBand :=
  [⟨0.0, 0.2, "SAFE"⟩, ⟨0.2, 0.4, "LOW"⟩, ⟨0.4, 0.6, "MEDIUM"⟩,
   ⟨0.6, 0.8, "HIGH"⟩, ⟨0.8, 1.01, "CRITICAL"⟩]

/-- `RiskScorer._get_risk_level`: first band with `low <= score < high`,
falling back to the `(0.8, 1.01)` (CRITICAL) entry. -/
def getRiskLevel (score : ℚ) : String :=
  ((RISK_LEVELS.find? (fun b => decide (b.lo ≤ score) && decide (score < b.hi))).getD
    ⟨0.8, 1.01, "CRITICAL"⟩).level

/-- `RiskScorer._get_recommendation`. -/
def getRecommendation (score : ℚ) : String :=
  if score > 0.8 then "🚨 CRITICAL: Do NOT interact. Report as phishing immediately."
  else if score > 0.6 then "⚠️ HIGH RISK: Avoid clicking links or providing information. Verify sender through official channels."
  else if score > 0.4 then "⚡ CAUTION: Some suspicious indicators found. Verify the source before proceeding."
  else if score > 0.2 then "ℹ️ LOW RISK: Minor indicators detected. Exercise normal caution."
  else "✅ SAFE: No significant phishing indicators detected."

/-- Python-dict assignment `d[k] = v` on an association list with unique keys:
replace the first binding of `k` in place, else append at the end. -/
def dictInsert {κ α : Type} [DecidableEq κ] : List (κ × α) → κ → α → List (κ × α)
  | [], k, v => [(k, v)]
  | p :: rest, k, v => if p.1 = k then (k, v) :: rest else p :: dictInsert rest k v

/-- Python-dict lookup `d[k]` on an association list (first binding wins;
keys are unique by construction). -/
def dictLookup {κ α : Type} [DecidableEq κ] : List (κ × α) → κ → Option α
  | [], _ => none
  | p :: rest, k => if p.1 = k then some p.2 else dictLookup rest k

/-- Loop state of the `for result in engine_results` loop in `calculate_risk`. -/
structure AggState where
  weighted : ℚ
  total : ℚ
  allReasons : List String
  engineScores : List (String × (ℚ × ℚ))

/-- One iteration of the aggregation loop (risk_scorer.py lines 35-43). -/
def aggStep (st : AggState) (r : EngineResult) : AggState :=
  { weighted := st.weighted + r.score * engineWeight r.engine,
    total := st.total + engineWeight r.engine,
    allReasons := st.allReasons ++ r.reasons,
    engineScores := dictInsert st.engineScores r.engine (r.score, engineWeight r.engine) }

/-- Order-preserving de-duplication of the reason list
(the `seen` set loop, risk_scorer.py lines 57-63). -/
def dedupKeepFirst (l : List String) : List String :=
  l.foldl (fun acc r => if acc.contains r then acc else acc ++ [r]) []

/-- The aggregator's output (`explanation`, colors and icons — display-only
strings — are omitted). -/
structure RiskAssessment where
  risk_score : ℚ
  risk_level : String
  is_phishing : Bool
  engine_scores : List (String × (ℚ × ℚ))
  reasons : List String
  recommendation : String

/-- `RiskScorer.calculate_risk` (risk_scorer.py lines 29-77). -/
def calculateRisk (engineResults : List EngineResult) : RiskAssessment :=
  let st := engineResults.foldl aggStep ⟨0, 0, [], []⟩
  let finalScore := st.weighted / max st.total 0.01
  let highScores := (engineResults.filter (fun r => decide (r.score > 0.6))).length
  let boosted := if highScores ≥ 3 then min (finalScore * 1.2) 1.0 else finalScore
  let ampReasons :=
    if highScores ≥ 3 then st.allReasons ++ ["Multiple engines agree on high risk"]
    else st.allReasons
  let clamped := min (max boosted 0.0) 1.0
  let rounded := roundScore clamped
  { risk_score := rounded,
    risk_level := getRiskLevel rounded,
    is_phishing := decide (rounded > 0.6),
    engine_scores := st.engineScores,
    reasons := (dedupKeepFirst ampReasons).take 15,
    recommendation := getRecommendation rounded }

lemma aggFold_weighted (l : List EngineResult) (st : AggState) :
    (l.foldl aggStep st).weighted
      = st.weighted + (l.map (fun r => r.score * engineWeight r.engine)).sum := by
  induction l generalizing st with
  | nil => simp
  | cons r rest ih =>
    simp only [List.foldl_cons, List.map_cons, List.sum_cons, ih, aggStep]
    ring

lemma aggFold_total (l : List EngineResult) (st : AggState) :
    (l.foldl aggStep st).total = st.total + (l.map (fun r => engineWeight r.engine)).sum := by
  induction l generalizing st with
  | nil => simp
  | cons r rest ih =>
    simp only [List.foldl_cons, List.map_cons, List.sum_cons, ih, aggStep]
    ring

lemma dictLookup_dictInsert {κ α : Type} [DecidableEq κ] (d : List (κ × α)) (k k' : κ) (v : α) :
    dictLookup (dictInsert d k v) k' = if k' = k then some v else dictLookup d k' := by
  induction d with
  | nil =>
    rcases eq_or_ne k' k with h | h
    · subst h
      simp [dictInsert, dictLookup]
    · simp [dictInsert, dictLookup, Ne.symm h, h]
  | cons p rest ih =>
    rcases eq_or_ne p.1 k with hp | hp
    · rcases eq_or_ne k' k with h | h
      · subst h
        simp [dictInsert, dictLookup, hp]
      · simp only [dictInsert, if_pos hp, dictLookup]
        rw [if_neg (fun hh => h hh.symm), if_neg h, if_neg (fun hh => h (hp ▸ hh).symm)]
    · rcases eq_or_ne p.1 k' with hpk | hpk
      · have h : k' ≠ k := fun hh => hp (hpk.trans hh)
        simp only [dictInsert, if_neg hp, dictLookup, if_pos hpk, if_neg h]
      · simp only [dictInsert, if_neg hp, dictLookup, if_neg hpk, ih]

lemma aggFold_scores (l : List EngineResult) (st : AggState) (n : String) :
    dictLookup ((l.foldl aggStep st).engineScores) n
      = match (l.filter (fun r => decide (r.engine = n))).getLast? with
        | some r => some (r.score, engineWeight r.engine)
        | none => dictLookup st.engineScores n := by
  induction l using List.reverseRecOn generalizing st with
  | nil => simp
  | append_singleton rest r ih =>
    rw [List.foldl_append]
    simp only [List.foldl_cons, List.foldl_nil]
    have hstep : (aggStep (rest.foldl aggStep st) r).engineScores
        = dictInsert ((rest.foldl aggStep st).engineScores) r.engine
            (r.score, engineWeight r.engine) := rfl
    rw [hstep, dictLookup_dictInsert, List.filter_append]
    by_cases h : r.engine = n
    · have hf : (List.filter (fun r => decide (r.engine = n)) [r]) = [r] := by
        simp [List.filter, h]
      rw [hf, List.getLast?_concat, if_pos h.symm]
    · have hf : (List.filter (fun r => decide (r.engine = n)) [r]) = [] := by
        simp [List.filter, h]
      rw [hf, List.append_nil, if_neg (fun hh => h hh.symm), ih]

/-- Evaluation helper: rounding is the identity on any rational that is an
exact multiple of 1/10000. -/
lemma roundScore_exact (x : ℚ) (n : ℤ) (h : x * 10000 = (n : ℚ)) :
    roundScore x = (n : ℚ) / 10000 := by
  unfold roundScore
  rw [h, Int.floor_intCast]

/- ======================================================================
   Aggregator theorems (claims C6, C7, C8, C10)
   ====================================================================== -/

lemma riskBand_safe (s : ℚ) (h1 : 0 ≤ s) (h2 : s < 0.2) : getRiskLevel s = "SAFE" := by
  have c1 : (decide ((0.0 : ℚ) ≤ s) && decide (s < 0.2)) = true := by
    simp only [Bool.and_eq_true, decide_eq_true_eq]
    constructor <;> linarith
  unfold getRiskLevel RISK_LEVELS
  simp only [List.find?, c1]
  rfl

lemma riskBand_low (s : ℚ) (h1 : 0.2 ≤ s) (h2 : s < 0.4) : getRiskLevel s = "LOW" := by
  have f1 : decide (s < (0.2 : ℚ)) = false := by simp only [decide_eq_false_iff_not, not_lt]; exact h1
  have c1 : (decide ((0.2 : ℚ) ≤ s) && decide (s < 0.4)) = true := by
    simp only [Bool.and_eq_true, decide_eq_true_eq]
    exact ⟨h1, h2⟩
  unfold getRiskLevel RISK_LEVELS
  simp only [List.find?, f1, Bool.and_false, c1]
  rfl

lemma riskBand_medium (s : ℚ) (h1 : 0.4 ≤ s) (h2 : s < 0.6) : getRiskLevel s = "MEDIUM" := by
  have f1 : decide (s < (0.2 : ℚ)) = false := by
    simp only [decide_eq_false_iff_not, not_lt]; linarith
  have f2 : decide (s < (0.4 : ℚ)) = false := by
    simp only [decide_eq_false_iff_not, not_lt]; exact h1
  have c1 : (decide ((0.4 : ℚ) ≤ s) && decide (s < 0.6)) = true := by
    simp only [Bool.and_eq_true, decide_eq_true_eq]
    exact ⟨h1, h2⟩
  unfold getRiskLevel RISK_LEVELS
  simp only [List.find?, f1, f2, Bool.and_false, c1]
  rfl

lemma riskBand_high (s : ℚ) (h1 : 0.6 ≤ s) (h2 : s < 0.8) : getRiskLevel s = "HIGH" := by
  have f1 : decide (s < (0.2 : ℚ)) = false := by
    simp only [decide_eq_false_iff_not, not_lt]; linarith
  have f2 : decide (s < (0.4 : ℚ)) = false := by
    simp only [decide_eq_false_iff_not, not_lt]; linarith
  have f3 : decide (s < (0.6 : ℚ)) = false := by
    simp only [decide_eq_false_iff_not, not_lt]; exact h1
  have c1 : (decide ((0.6 : ℚ) ≤ s) && decide (s < 0.8)) = true := by
    simp only [Bool.and_eq_true, decide_eq_true_eq]
    exact ⟨h1, h2⟩
  unfold getRiskLevel RISK_LEVELS
  simp only [List.find?, f1, f2, f3, Bool.and_false, c1]
  rfl

lemma riskBand_critical (s : ℚ) (h1 : 0.8 ≤ s) (h2 : s ≤ 1) : getRiskLevel s = "CRITICAL" := by
  have f1 : decide (s < (0.2 : ℚ)) = false := by
    simp only [decide_eq_false_iff_not, not_lt]; linarith
  have f2 : decide (s < (0.4 : ℚ)) = false := by
    simp only [decide_eq_false_iff_not, not_lt]; linarith
  have f3 : decide (s < (0.6 : ℚ)) = false := by
    simp only [decide_eq_false_iff_not, not_lt]; linarith
  have f4 : decide (s < (0.8 : ℚ)) = false := by
    simp only [decide_eq_false_iff_not, not_lt]; exact h1
  have c1 : (decide ((0.8 : ℚ) ≤ s) && decide (s < 1.01)) = true := by
    simp only [Bool.and_eq_true, decide_eq_true_eq]
    exact ⟨h1, by linarith⟩
  unfold getRiskLevel RISK_LEVELS
  simp only [List.find?, f1, f2, f3, f4, Bool.and_false, c1]
  rfl

/-- C6: the aggregator's `risk_level` is a pure function of the final
`risk_score` via fixed half-open bands: [0,0.2) SAFE, [0.2,0.4) LOW,
[0.4,0.6) MEDIUM, [0.6,0.8) HIGH, [0.8,1] CRITICAL; a score of exactly 0.6
maps to HIGH, a score of exactly 1 maps to CRITICAL, and `is_phishing` holds
exactly when `risk_score > 0.6`. -/
theorem c6_risk_level_bands :
    (∀ s : ℚ, 0 ≤ s → s < 0.2 → getRiskLevel s = "SAFE") ∧
    (∀ s : ℚ, 0.2 ≤ s → s < 0.4 → getRiskLevel s = "LOW") ∧
    (∀ s : ℚ, 0.4 ≤ s → s < 0.6 → getRiskLevel s = "MEDIUM") ∧
    (∀ s : ℚ, 0.6 ≤ s → s < 0.8 → getRiskLevel s = "HIGH") ∧
    (∀ s : ℚ, 0.8 ≤ s → s ≤ 1 → getRiskLevel s = "CRITICAL") ∧
    getRiskLevel 0.6 = "HIGH" ∧ getRiskLevel 1 = "CRITICAL" ∧
    (∀ l : List EngineResult,
      (calculateRisk l).risk_level = getRiskLevel (calculateRisk l).risk_score ∧
      (calculateRisk l).is_phishing = decide ((calculateRisk l).risk_score > 0.6)) :=
  ⟨riskBand_safe, riskBand_low, riskBand_medium, riskBand_high, riskBand_critical,
   riskBand_high 0.6 (by norm_num) (by norm_num),
   riskBand_critical 1 (by norm_num) (by norm_num),
   fun _ => ⟨rfl, rfl⟩⟩

/-- C6 witness: the band statements applied at concrete scores. -/
theorem c6_risk_level_bands_witness :
    ((0 : ℚ) ≤ 0.1 ∧ (0.1 : ℚ) < 0.2 ∧ getRiskLevel 0.1 = "SAFE") ∧
    ((0.8 : ℚ) ≤ 0.9 ∧ (0.9 : ℚ) ≤ 1 ∧ getRiskLevel 0.9 = "CRITICAL") :=
  ⟨⟨by norm_num, by norm_num, c6_risk_level_bands.1 0.1 (by norm_num) (by norm_num)⟩,
   ⟨by norm_num, by norm_num,
    c6_risk_level_bands.2.2.2.2.1 0.9 (by norm_num) (by norm_num)⟩⟩

/-- C7: `calculate_risk` is invariant under permutation of its input list in
`risk_score`, `risk_level` and `is_phishing`, because the fused score is a
per-engine-name weighted mean over the multiset of results, not positional. -/
theorem c7_perm_invariant (l₁ l₂ : List EngineResult) (h : l₁.Perm l₂) :
    (calculateRisk l₁).risk_score = (calculateRisk l₂).risk_score ∧
    (calculateRisk l₁).risk_level = (calculateRisk l₂).risk_level ∧
    (calculateRisk l₁).is_phishing = (calculateRisk l₂).is_phishing := by
  have hw : (l₁.map (fun r => r.score * engineWeight r.engine)).sum
      = (l₂.map (fun r => r.score * engineWeight r.engine)).sum :=
    (h.map _).sum_eq
  have ht : (l₁.map (fun r => engineWeight r.engine)).sum
      = (l₂.map (fun r => engineWeight r.engine)).sum :=
    (h.map _).sum_eq
  have hc : (l₁.filter (fun r => decide (r.score > 0.6))).length
      = (l₂.filter (fun r => decide (r.score > 0.6))).length :=
    (h.filter _).length_eq
  refine ⟨?_, ?_, ?_⟩ <;>
    simp only [calculateRisk, aggFold_weighted, aggFold_total, hw, ht, hc]

/-- C7 witness: a concrete two-element swap. -/
theorem c7_perm_invariant_witness :
    ([⟨"url_analyzer", 0.9, ["a"]⟩, ⟨"nlp_engine", 0.2, ["b"]⟩] :
        List EngineResult).Perm
      [⟨"nlp_engine", 0.2, ["b"]⟩, ⟨"url_analyzer", 0.9, ["a"]⟩] ∧
    (calculateRisk [⟨"url_analyzer", 0.9, ["a"]⟩, ⟨"nlp_engine", 0.2, ["b"]⟩]).risk_score
      = (calculateRisk
          [⟨"nlp_engine", 0.2, ["b"]⟩, ⟨"url_analyzer", 0.9, ["a"]⟩]).risk_score :=
  ⟨List.Perm.swap _ _ _,
   (c7_perm_invariant _ _ (List.Perm.swap _ _ _)).1⟩

/-- C8: the aggregator does not fail on the empty result list: the guarded
division `0 / max(0, 0.01)` yields risk_score 0, level SAFE, not phishing. -/
theorem c8_empty_list :
    (calculateRisk []).risk_score = 0 ∧
    (calculateRisk []).risk_level = "SAFE" ∧
    (calculateRisk []).is_phishing = false := by
  have hs : (calculateRisk []).risk_score = 0 := by
    simp only [calculateRisk, List.foldl_nil, List.filter_nil, List.length_nil]
    norm_num
    rw [roundScore_exact 0 0 (by norm_num)]
    norm_num
  refine ⟨hs, ?_, ?_⟩
  · have : (calculateRisk []).risk_level = getRiskLevel (calculateRisk []).risk_score := rfl
    rw [this, hs]
    exact riskBand_safe 0 (by norm_num) (by norm_num)
  · have : (calculateRisk []).is_phishing
        = decide ((calculateRisk []).risk_score > 0.6) := rfl
    rw [this, hs]
    norm_num

/-- C10: with duplicate engine names, every occurrence contributes its
`score × weight` to the numerator and its weight to the denominator of the
fused score (no per-name deduplication or averaging), while the
`engine_scores` mapping retains only the last occurrence for each name. -/
theorem c10_duplicate_engines (l : List EngineResult) :
    ((calculateRisk l).risk_score =
      roundScore (min (max
        (if (l.filter (fun r => decide (r.score > 0.6))).length ≥ 3 then
          min (((l.map (fun r => r.score * engineWeight r.engine)).sum /
            max ((l.map (fun r => engineWeight r.engine)).sum) 0.01) * 1.2) 1.0
        else
          (l.map (fun r => r.score * engineWeight r.engine)).sum /
            max ((l.map (fun r => engineWeight r.engine)).sum) 0.01) 0.0) 1.0)) ∧
    (∀ n : String,
      dictLookup (calculateRisk l).engine_scores n =
        ((l.filter (fun r => decide (r.engine = n))).getLast?).map
          (fun r => (r.score, engineWeight r.engine))) := by
  constructor
  · simp only [calculateRisk, aggFold_weighted, aggFold_total, zero_add]
  · intro n
    simp only [calculateRisk]
    rw [aggFold_scores]
    cases (l.filter (fun r => decide (r.engine = n))).getLast? with
    | none => simp [dictLookup]
    | some r => simp

/- ======================================================================
   Domain similarity engine — backend/engines/domain_checker.py
   ====================================================================== -/

/-- `HOMOGLYPH_MAP` (domain_checker.py lines 10-37): canonical Latin letter to
its visually-similar substitutes. -/
def HOMOGLYPH_MAP : List (Char × List Char) :=
  [('a', ['а', 'ɑ', 'α', 'ạ', 'ä', 'à', 'á', 'â', 'ã', 'å']),
   ('b', ['Ь', 'ḃ', 'ɓ', 'ƀ']),
   ('c', ['с', 'ç', 'ć', 'ĉ', 'ċ']),
   ('d', ['ԁ', 'ḋ', 'ɗ', 'đ']),
   ('e', ['е', 'ë', 'é', 'è', 'ê', 'ẹ', 'ė', 'ę']),
   ('f', ['ƒ']),
   ('g', ['ɡ', 'ĝ', 'ğ', 'ġ', 'ģ']),
   ('h', ['һ', 'ĥ', 'ħ']),
   ('i', ['і', 'ı', 'ì', 'í', 'î', 'ï', 'ĩ', 'ɪ', 'ị', 'ł']),
   ('j', ['ϳ', 'ĵ']),
   ('k', ['κ', 'ḳ', 'ḵ']),
   ('l', ['ӏ', 'ĺ', 'ļ', 'ľ', 'ŀ', '1', '|']),
   ('m', ['м', 'ṁ']),
   ('n', ['п', 'ñ', 'ń', 'ņ', 'ŋ']),
   ('o', ['о', 'ö', 'ó', 'ò', 'ô', 'õ', 'ọ', '0', 'ø']),
   ('p', ['р', 'ṗ']),
   ('q', ['ԛ']),
   ('r', ['г', 'ŕ', 'ř']),
   ('s', ['ѕ', 'ś', 'š', 'ş', '$', '5']),
   ('t', ['τ', 'ṫ', 'ţ', 'ŧ']),
   ('u', ['υ', 'ú', 'ù', 'û', 'ü', 'ũ', 'ụ', 'μ']),
   ('v', ['ν', 'ṿ']),
   ('w', ['ω', 'ẁ', 'ẃ', 'ẅ']),
   ('x', ['х', 'ẋ', 'ẍ']),
   ('y', ['у', 'ý', 'ÿ', 'ŷ']),
   ('z', ['ź', 'ż', 'ž'])]

/-- `LEGITIMATE_DOMAINS` (domain_checker.py lines 40-54). -/
def LEGITIMATE_DOMAINS : List String :=
  ["google.com", "gmail.com", "youtube.com", "facebook.com", "instagram.com",
   "twitter.com", "linkedin.com", "microsoft.com", "apple.com", "amazon.com",
   "netflix.com", "paypal.com", "ebay.com", "dropbox.com", "icloud.com",
   "outlook.com", "office365.com", "chase.com", "wellsfargo.com", "bank.com",
   "bankofamerica.com", "citibank.com", "usbank.com", "americanexpress.com",
   "whatsapp.com", "telegram.org", "signal.org", "zoom.us", "slack.com",
   "github.com", "gitlab.com", "stackoverflow.com", "reddit.com",
   "coinbase.com", "binance.com", "kraken.com", "blockchain.com",
   "adobe.com", "salesforce.com", "stripe.com", "shopify.com",
   "wordpress.com", "godaddy.com", "cloudflare.com", "aws.amazon.com",
   "yahoo.com", "aol.com", "hotmail.com", "live.com", "msn.com",
   "fidelity.com", "schwab.com", "vanguard.com", "robinhood.com",
   "dhl.com", "fedex.com", "ups.com", "usps.com"]

/-- `TYPO_PATTERNS` (domain_checker.py lines 57-63). -/
def TYPO_PATTERNS : List (List Char × List Char) :=
  [(['r', 'n'], ['m']), (['c', 'l'], ['d']), (['n', 'n'], ['m']),
   (['v', 'v'], ['w']), (['i', 'i'], ['u'])]

/-- `DomainChecker._build_homoglyph_reverse_map`: dict from each homoglyph
character to its canonical Latin letter. -/
def reverseHomoglyph : List (Char × Char) :=
  HOMOGLYPH_MAP.foldl (fun acc p => p.2.foldl (fun a h => dictInsert a h p.1) acc) []

/-- Python `str.strip()` (whitespace at both ends). -/
def trimChars (s : List Char) : List Char :=
  ((s.dropWhile Char.isWhitespace).reverse.dropWhile Char.isWhitespace).reverse

/-- Fuel-indexed worker for `splitSub` (fuel bounds the number of consumed
characters, making the recursion structural). -/
def splitSubGo (sep : List Char) : ℕ → List Char → List Char → List (List Char)
  | _, [], acc => [acc.reverse]
  | 0, s, acc => [acc.reverse ++ s]
  | fuel + 1, c :: rest, acc =>
    if sep.isPrefixOf (c :: rest) then
      acc.reverse :: splitSubGo sep fuel (rest.drop (sep.length - 1)) []
    else
      splitSubGo sep fuel rest (c :: acc)

/-- Python `str.split(sep)` for a non-empty separator: split on each
left-to-right non-overlapping occurrence. -/
def splitSub (sep s : List Char) : List (List Char) := splitSubGo sep s.length s []

/-- Python `sub in s` (contiguous substring test). -/
def containsSub (sub s : List Char) : Bool :=
  (List.range (s.length + 1)).any (fun i => sub.isPrefixOf (s.drop i))

/-- Python `s.replace(pat, rep)`: replace every left-to-right non-overlapping
occurrence (split on the pattern, re-join with the replacement). -/
def replaceSub (s pat rep : List Char) : List Char := List.intercalate rep (splitSub pat s)

/-- `DomainChecker._clean_domain`: lowercase (ASCII, which covers every use in
this development), strip whitespace, strip scheme / path / port, strip a
leading `www.`. -/
def cleanDomain (domain : List Char) : List Char :=
  let d := trimChars (domain.map Char.toLower)
  let d := if containsSub "://".toList d then (splitSub "://".toList d).getD 1 [] else d
  let d := (splitSub ['/'] d).getD 0 []
  let d := (splitSub [':'] d).getD 0 []
  if "www.".toList.isPrefixOf d then d.drop 4 else d

/-- Result of `DomainChecker._detect_homoglyphs`: the `found` substitution
records `(original, looks_like, position)` and the homoglyph-normalized
domain; the human-readable `details` string is display-only and omitted. -/
structure HomoglyphScan where
  found : List (Char × Char × ℕ)
  normalized : List Char
deriving DecidableEq

/-- `DomainChecker._detect_homoglyphs` (domain_checker.py lines 203-240). -/
def detectHomoglyphs (domain : List Char) : HomoglyphScan :=
  domain.foldl (fun st ch =>
    match dictLookup reverseHomoglyph ch with
    | some orig =>
      { found := st.found ++ [(ch, orig, st.normalized.length)],
        normalized := st.normalized ++ [orig] }
    | none => { st with normalized := st.normalized ++ [ch] })
    ⟨[], []⟩

/-- Inner cells of one Levenshtein DP row: for each `c2` of `s2`, the cell is
`min(prev_row[j+1] + 1, curr_row[j] + 1, prev_row[j] + (c1 != c2))`. -/
def levCells (c1 : Char) : List Char → List ℕ → ℕ → List ℕ
  | [], _, _ => []
  | _ :: _, [], _ => []
  | c2 :: s2rest, p0 :: prest, left =>
    let p1 := prest.headD 0
    let cell := min (p1 + 1) (min (left + 1) (p0 + (if c1 = c2 then 0 else 1)))
    cell :: levCells c1 s2rest prest cell

/-- One full Levenshtein DP row: `curr_row = [i + 1] ++ cells`. -/
def levRow (c1 : Char) (s2 : List Char) (prev : List ℕ) (i : ℕ) : List ℕ :=
  (i + 1) :: levCells c1 s2 prev (i + 1)

/-- The row loop `for i, c1 in enumerate(s1)`. -/
def levRows (s2 : List Char) : List Char → List ℕ → ℕ → List ℕ
  | [], prev, _ => prev
  | c1 :: s1rest, prev, i => levRows s2 s1rest (levRow c1 s2 prev i) (i + 1)

/-- The DP core of `_levenshtein_distance`: run the rows starting from
`range(len(s2) + 1)` and take the last entry of the final row. -/
def levenshteinCore (s1 s2 : List Char) : ℕ :=
  ((levRows s2 s1 (List.range (s2.length + 1)) 0).getLast?).getD 0

/-- `DomainChecker._levenshtein_distance`: the initial swap recursion
`if len(s1) < len(s2): return distance(s2, s1)` is expressed by ordering the
arguments up front; then `if len(s2) == 0: return len(s1)`. -/
def levenshteinDistance (s1 s2 : List Char) : ℕ :=
  let p := if s1.length < s2.length then (s2, s1) else (s1, s2)
  if p.2.length = 0 then p.1.length else levenshteinCore p.1 p.2

/-- `DomainChecker._calculate_similarity`: `1 - distance / max(len, len)`
(1 when both strings are empty). -/
def calculateSimilarity (s1 s2 : List Char) : ℚ :=
  let distance := levenshteinDistance s1 s2
  let maxLen := max s1.length s2.length
  if maxLen = 0 then 1 else 1 - (distance : ℚ) / (maxLen : ℚ)

/-- One entry of `_find_similar_domains`' result list. -/
structure SimMatch where
  domain : List Char
  similarity : ℚ
  editDistance : ℕ
deriving DecidableEq

/-- Stable insertion into a descending-by-similarity list (ties keep the
earlier element first, as Python's stable `sort(reverse=True)` does). -/
def insertDesc (m : SimMatch) : List SimMatch → List SimMatch
  | [] => [m]
  | x :: xs => if m.similarity > x.similarity then m :: x :: xs else x :: insertDesc m xs

/-- Stable descending sort by similarity
(`similarities.sort(key=..., reverse=True)`). -/
def sortSimDesc (l : List SimMatch) : List SimMatch :=
  l.foldl (fun acc m => insertDesc m acc) []

/-- `DomainChecker._find_similar_domains` (domain_checker.py lines 242-268):
compare the raw domain (and, when homoglyphs were found, its normalized form)
against every legitimate domain; keep similarities above 0.5, rounded to 4
decimals; sort descending. -/
def findSimilarDomains (legit : List (List Char)) (domain : List Char) : List SimMatch :=
  let hg := detectHomoglyphs domain
  let checkDomains := if hg.found.isEmpty then [domain] else [domain, hg.normalized]
  let sims := legit.foldl (fun acc ld =>
    checkDomains.foldl (fun acc2 cd =>
      let similarity := calculateSimilarity cd ld
      if similarity > 0.5 then
        acc2 ++ [⟨ld, roundScore similarity, levenshteinDistance cd ld⟩]
      else acc2) acc) []
  sortSimDesc sims

/-- `DomainChecker._detect_typosquatting` (domain_checker.py lines 270-326):
first legitimate domain whose base name matches the base domain under
adjacent transposition, single omission, doubled-character deduplication, or
one of the fixed digraph patterns. -/
def detectTyposquatting (legit : List (List Char)) (domain : List Char) :
    Option (List Char) :=
  let baseDomain := (splitSub ['.'] domain).getD 0 []
  legit.find? (fun lg =>
    let legitBase := (splitSub ['.'] lg).getD 0 []
    -- adjacent-character transposition
    ((List.range (baseDomain.length - 1)).any (fun i =>
      ((List.range baseDomain.length).map (fun j =>
        if j = i then baseDomain.getD (i + 1) ' '
        else if j = i + 1 then baseDomain.getD i ' '
        else baseDomain.getD j ' ')) == legitBase)) ||
    -- single-character omission from the legitimate base
    ((List.range legitBase.length).any (fun i => legitBase.eraseIdx i == baseDomain)) ||
    -- doubled character deduplicated
    ((List.range (baseDomain.length - 1)).any (fun i =>
      (baseDomain.getD i ' ' == baseDomain.getD (i + 1) ' ') &&
      (baseDomain.eraseIdx i == legitBase))) ||
    -- fixed digraph substitutions (rn→m, cl→d, …)
    (TYPO_PATTERNS.any (fun pr =>
      containsSub pr.1 baseDomain && (replaceSub baseDomain pr.1 pr.2 == legitBase))))

/-- `DomainChecker._check_brand_in_subdomain` (domain_checker.py lines
328-347): a legitimate brand token inside the subdomain labels but not in the
second-to-last label. -/
def checkBrandInSubdomain (legit : List (List Char)) (domain : List Char) :
    Option (List Char) :=
  let parts := splitSub ['.'] domain
  if parts.length ≤ 2 then none
  else
    let subdomains := List.intercalate ['.'] (parts.take (parts.length - 2))
    let mainPart := parts.getD (parts.length - 2) []
    (legit.find? (fun lg =>
      let brand := (splitSub ['.'] lg).getD 0 []
      containsSub brand subdomains && !(containsSub brand mainPart))).map
      (fun lg => (splitSub ['.'] lg).getD 0 [])

/-- The domain engine's `AnalysisResult`; formatted reason payloads (matched
names, percentages) are elided, keeping each reason's fixed descriptive text. -/
structure DomainResult where
  engine : String
  domain : List Char
  score : ℚ
  reasons : List String
  matchList : List SimMatch
  homoglyph_detected : Bool
  typosquatting_detected : Bool
  is_suspicious : Bool

/-- `DomainChecker.analyze` (domain_checker.py lines 87-188), over an
arbitrary `legitimate_domains` list (the constructor's parameter, defaulting
to `LEGITIMATE_DOMAINS`). -/
def domainAnalyze (legitimateDomains : List (List Char)) (domain : List Char) :
    DomainResult :=
  let domain := cleanDomain domain
  if domain ∈ legitimateDomains then
    { engine := "domain_checker", domain := domain, score := 0.0,
      reasons := ["Domain is in legitimate whitelist"], matchList := [],
      homoglyph_detected := false, typosquatting_detected := false,
      is_suspicious := false }
  else
    let score : ℚ := 0.0
    let reasons : List String := []
    let hg := detectHomoglyphs domain
    let homoglyphDetected := !hg.found.isEmpty
    let score := if homoglyphDetected then max score 0.9 else score
    let reasons :=
      if homoglyphDetected then reasons ++ ["Homoglyph characters detected"] else reasons
    let similar := findSimilarDomains legitimateDomains domain
    let matchList := similar.take 5
    let score :=
      match similar.head? with
      | some best =>
        if best.similarity ≥ 0.85 then max score 0.85
        else if best.similarity ≥ 0.7 then max score 0.6
        else score
      | none => score
    let reasons :=
      match similar.head? with
      | some best =>
        if best.similarity ≥ 0.85 then reasons ++ ["Very similar to legitimate domain"]
        else if best.similarity ≥ 0.7 then reasons ++ ["Moderately similar to legitimate domain"]
        else reasons
      | none => reasons
    let typo := detectTyposquatting legitimateDomains domain
    let score := if typo.isSome then max score 0.8 else score
    let reasons := if typo.isSome then reasons ++ ["Typosquatting pattern detected"] else reasons
    let brand := checkBrandInSubdomain legitimateDomains domain
    let score := if brand.isSome then max score 0.7 else score
    let reasons := if brand.isSome then reasons ++ ["Brand name found in subdomain"] else reasons
    let subdomainCount : ℤ := (domain.count '.' : ℤ) - 1
    let score := if subdomainCount > 2 then max score 0.4 else score
    let reasons := if subdomainCount > 2 then reasons ++ ["Excessive subdomain depth"] else reasons
    { engine := "domain_checker", domain := domain, score := roundScore score,
      reasons := reasons, matchList := matchList,
      homoglyph_detected := homoglyphDetected,
      typosquatting_detected := typo.isSome,
      is_suspicious := decide (score > 0.5) }

/-- Scores of the domain engine are exact multiples of 1/20 in [0,1]. -/
def IsTwentieth (a : ℚ) : Prop := ∃ n : ℕ, n ≤ 20 ∧ a = (n : ℚ) / 20

lemma isTwentieth_max {a b : ℚ} (ha : IsTwentieth a) (hb : IsTwentieth b) :
    IsTwentieth (max a b) := by
  obtain ⟨n, hn, rfl⟩ := ha
  obtain ⟨m, hm, rfl⟩ := hb
  rcases le_total ((n : ℚ) / 20) ((m : ℚ) / 20) with h | h
  · rw [max_eq_right h]; exact ⟨m, hm, rfl⟩
  · rw [max_eq_left h]; exact ⟨n, hn, rfl⟩

lemma isTwentieth_ite (c : Prop) [Decidable c] {a b : ℚ}
    (ha : IsTwentieth a) (hb : IsTwentieth b) : IsTwentieth (if c then a else b) := by
  split
  · exact ha
  · exact hb

lemma IsTwentieth.nonneg {a : ℚ} (h : IsTwentieth a) : 0 ≤ a := by
  obtain ⟨n, _, rfl⟩ := h
  positivity

lemma IsTwentieth.le_one {a : ℚ} (h : IsTwentieth a) : a ≤ 1 := by
  obtain ⟨n, hn, rfl⟩ := h
  rw [div_le_one (by norm_num : (0 : ℚ) < 20)]
  exact_mod_cast by omega

lemma IsTwentieth.round_eq {a : ℚ} (h : IsTwentieth a) : roundScore a = a := by
  obtain ⟨n, _, rfl⟩ := h
  exact roundScore_twentieth n

/-- The six triggered-signal values of the domain engine on a non-whitelisted
domain, combined by `max` exactly as `DomainChecker.analyze` accumulates them. -/
def domainSignalMax (legit : List (List Char)) (dc : List Char) : ℚ :=
  max (max (max (max
    (if !(detectHomoglyphs dc).found.isEmpty then (0.9 : ℚ) else 0)
    (match (findSimilarDomains legit dc).head? with
     | some best =>
       if best.similarity ≥ 0.85 then (0.85 : ℚ)
       else if best.similarity ≥ 0.7 then 0.6 else 0
     | none => 0))
    (if (detectTyposquatting legit dc).isSome then (0.8 : ℚ) else 0))
    (if (checkBrandInSubdomain legit dc).isSome then (0.7 : ℚ) else 0))
    (if ((dc.count '.' : ℤ) - 1 > 2) then (0.4 : ℚ) else 0)

lemma domainAnalyze_nonwhitelist (legit : List (List Char)) (d : List Char)
    (h : cleanDomain d ∉ legit) :
    (domainAnalyze legit d).score = domainSignalMax legit (cleanDomain d) ∧
    (domainAnalyze legit d).is_suspicious
      = decide (domainSignalMax legit (cleanDomain d) > 0.5) := by
  unfold domainAnalyze domainSignalMax
  rw [if_neg h]
  simp only []
  repeat' split
  all_goals norm_num [roundScore_exact, max_def, roundScore, decide_eq_decide]

lemma domainSignalMax_twentieth (legit : List (List Char)) (dc : List Char) :
    IsTwentieth (domainSignalMax legit dc) := by
  unfold domainSignalMax
  refine isTwentieth_max (isTwentieth_max (isTwentieth_max (isTwentieth_max ?_ ?_) ?_) ?_) ?_
  · exact isTwentieth_ite _ ⟨18, by norm_num, by norm_num⟩ ⟨0, by norm_num, by norm_num⟩
  · cases (findSimilarDomains legit dc).head? with
    | none => exact ⟨0, by norm_num, by norm_num⟩
    | some best =>
      exact isTwentieth_ite _ ⟨17, by norm_num, by norm_num⟩
        (isTwentieth_ite _ ⟨12, by norm_num, by norm_num⟩ ⟨0, by norm_num, by norm_num⟩)
  · exact isTwentieth_ite _ ⟨16, by norm_num, by norm_num⟩ ⟨0, by norm_num, by norm_num⟩
  · exact isTwentieth_ite _ ⟨14, by norm_num, by norm_num⟩ ⟨0, by norm_num, by norm_num⟩
  · exact isTwentieth_ite _ ⟨8, by norm_num, by norm_num⟩ ⟨0, by norm_num, by norm_num⟩

lemma domainAnalyze_whitelist (legit : List (List Char)) (d : List Char)
    (h : cleanDomain d ∈ legit) :
    domainAnalyze legit d =
      { engine := "domain_checker", domain := cleanDomain d, score := 0.0,
        reasons := ["Domain is in legitimate whitelist"], matchList := [],
        homoglyph_detected := false, typosquatting_detected := false,
        is_suspicious := false } := by
  unfold domainAnalyze
  rw [if_pos h]

lemma domainAnalyze_score_bounds (legit : List (List Char)) (d : List Char) :
    0 ≤ (domainAnalyze legit d).score ∧ (domainAnalyze legit d).score ≤ 1 := by
  by_cases h : cleanDomain d ∈ legit
  · rw [domainAnalyze_whitelist legit d h]
    norm_num
  · rw [(domainAnalyze_nonwhitelist legit d h).1]
    have ht := domainSignalMax_twentieth legit (cleanDomain d)
    exact ⟨ht.nonneg, ht.le_one⟩

lemma domainAnalyze_susp (legit : List (List Char)) (d : List Char) :
    (domainAnalyze legit d).is_suspicious
      = decide ((domainAnalyze legit d).score > 0.5) := by
  by_cases h : cleanDomain d ∈ legit
  · rw [domainAnalyze_whitelist legit d h]
    norm_num
  · obtain ⟨h1, h2⟩ := domainAnalyze_nonwhitelist legit d h
    rw [h1, h2]

/-- C4: for every non-whitelisted domain, the domain engine's score equals the
maximum over the triggered signals' fixed values (homoglyph 0.9, similarity
≥ 0.85 → 0.85, similarity ≥ 0.7 → 0.6, typosquatting 0.8, brand-in-subdomain
0.7, subdomain depth 0.4), never their sum; any homoglyph character forces a
score of at least 0.9. -/
theorem c4_score_is_max_of_signals (legit : List (List Char)) (d : List Char)
    (h : cleanDomain d ∉ legit) :
    (domainAnalyze legit d).score = domainSignalMax legit (cleanDomain d) ∧
    ((detectHomoglyphs (cleanDomain d)).found ≠ [] →
      (domainAnalyze legit d).score ≥ 0.9) := by
  refine ⟨(domainAnalyze_nonwhitelist legit d h).1, fun hne => ?_⟩
  rw [(domainAnalyze_nonwhitelist legit d h).1]
  unfold domainSignalMax
  have hb : (!(detectHomoglyphs (cleanDomain d)).found.isEmpty) = true := by
    simp only [Bool.not_eq_true']
    exact Bool.eq_false_iff.mpr (fun hh => hne (List.isEmpty_iff.mp hh))
  rw [ge_iff_le]
  refine le_trans ?_ (le_max_left _ _)
  refine le_trans ?_ (le_max_left _ _)
  refine le_trans ?_ (le_max_left _ _)
  refine le_trans ?_ (le_max_left _ _)
  rw [hb, if_pos rfl]

/-- C4 witness: the single-letter-swap domain `ba` against the legitimate list
`["ab"]` is not whitelisted and scores exactly the strongest signal, the
typosquatting transposition value 0.8. -/
theorem c4_score_is_max_of_signals_witness :
    (cleanDomain "ba".toList ∉ ["ab".toList]) ∧
    (domainAnalyze ["ab".toList] "ba".toList).score = 0.8 := by
  have h : cleanDomain "ba".toList ∉ ["ab".toList] := by decide
  refine ⟨h, ?_⟩
  rw [(c4_score_is_max_of_signals ["ab".toList] "ba".toList h).1]
  have hclean : cleanDomain "ba".toList = "ba".toList := by decide
  have hhg : detectHomoglyphs "ba".toList = ⟨[], "ba".toList⟩ := by decide
  have hlev : levenshteinDistance "ba".toList "ab".toList = 2 := by decide
  have hsim : calculateSimilarity "ba".toList "ab".toList = 0 := by
    unfold calculateSimilarity
    rw [hlev]
    norm_num
  have hfind : findSimilarDomains ["ab".toList] "ba".toList = [] := by
    unfold findSimilarDomains
    rw [hhg]
    simp only [List.isEmpty_nil, eq_self_iff_true, if_true, List.foldl_cons, List.foldl_nil]
    rw [hsim]
    norm_num [sortSimDesc]
  have htypo : detectTyposquatting ["ab".toList] "ba".toList = some "ab".toList := by
    decide
  have hbrand : checkBrandInSubdomain ["ab".toList] "ba".toList = none := by decide
  have hdepth : ¬(((List.count '.' "ba".toList : ℤ) - 1) > 2) := by decide
  unfold domainSignalMax
  rw [hclean, hhg, hfind, htypo, hbrand, if_neg hdepth]
  norm_num [max_def]

/-- C5: any input whose normalized form is in the legitimate-domain list gets
score 0.0, not suspicious, no homoglyph or typosquatting flags, and only the
whitelist reason. -/
theorem c5_whitelist_shortcircuit (legit : List (List Char)) (d : List Char)
    (h : cleanDomain d ∈ legit) :
    (domainAnalyze legit d).score = 0.0 ∧
    (domainAnalyze legit d).is_suspicious = false ∧
    (domainAnalyze legit d).homoglyph_detected = false ∧
    (domainAnalyze legit d).typosquatting_detected = false ∧
    (domainAnalyze legit d).reasons = ["Domain is in legitimate whitelist"] := by
  rw [domainAnalyze_whitelist legit d h]
  exact ⟨rfl, rfl, rfl, rfl, rfl⟩

/-- C5 witness: `analyze("google.com")` against the real legitimate-domain
list returns score 0.0 and is not suspicious. -/
theorem c5_whitelist_shortcircuit_witness :
    (cleanDomain "google.com".toList ∈ LEGITIMATE_DOMAINS.map (fun s => s.toList)) ∧
    (domainAnalyze (LEGITIMATE_DOMAINS.map (fun s => s.toList))
        "google.com".toList).score = 0.0 ∧
    (domainAnalyze (LEGITIMATE_DOMAINS.map (fun s => s.toList))
        "google.com".toList).is_suspicious = false := by
  have h : cleanDomain "google.com".toList ∈ LEGITIMATE_DOMAINS.map (fun s => s.toList) := by
    decide
  have hc := c5_whitelist_shortcircuit (LEGITIMATE_DOMAINS.map (fun s => s.toList))
    "google.com".toList h
  exact ⟨h, hc.1, hc.2.1⟩

/- ======================================================================
   URL feature & risk engine — backend/engines/url_analyzer.py
   ====================================================================== -/

/-- The features of `URLAnalyzer.extract_features` that `_calculate_score`
reads (url_analyzer.py lines 285-475).  Regex/string extraction itself is not
re-implemented, so the scoring pipeline is embedded over this record;
`brand_impersonation` abstracts the truthiness of the brand-name string. -/
structure URLFeatures where
  blacklist_pattern_match : Bool
  brand_impersonation : Bool
  brand_similarity : ℚ
  homoglyph_brand_attack : Bool
  url_length : ℕ
  has_ip_address : Bool
  subdomain_count : ℕ
  has_high_risk_tld : Bool
  has_suspicious_tld : Bool
  is_shortened : Bool
  domain_has_digits : Bool
  has_port : Bool
  likely_new_domain : Bool
  at_redirect_trick : Bool
  at_sign : Bool
  double_slash_redirect : Bool
  hyphen_count : ℕ
  dot_count : ℕ
  uses_https : Bool
  suspicious_token_count : ℕ
  has_suspicious_params : Bool
  has_punycode : Bool
  subdomain_brand_spoof : Bool
  url_entropy : ℚ
  domain_entropy : ℚ
  has_encoded_chars : Bool
  has_suspicious_extension : Bool
  consecutive_consonants_max : ℕ

/-- The `weights['blacklist']` accumulation. -/
def urlBlacklistW (f : URLFeatures) : ℚ :=
  if f.blacklist_pattern_match then 0.9 else 0

/-- The `weights['brand']` accumulation (brand impersonation block plus the
subdomain brand-spoofing block). -/
def urlBrandW (f : URLFeatures) : ℚ :=
  (if f.brand_impersonation then
    (if f.homoglyph_brand_attack then 0.85
     else if f.brand_similarity ≥ 0.8 then 0.75
     else 0.5)
   else 0) +
  (if f.subdomain_brand_spoof then 0.80 else 0)

/-- The `weights['length']` accumulation. -/
def urlLengthW (f : URLFeatures) : ℚ :=
  (if f.url_length > 75 then 0.25 else 0) +
  (if f.url_length > 150 then 0.25 else 0)

/-- The `weights['domain']` accumulation (domain block, punycode block,
consonant-cluster block, in source order). -/
def urlDomainW (f : URLFeatures) : ℚ :=
  (if f.has_ip_address then 0.85 else 0) +
  (if f.subdomain_count > 2 then 0.4 else 0) +
  (if f.has_high_risk_tld then 0.55 else if f.has_suspicious_tld then 0.40 else 0) +
  (if f.is_shortened then 0.40 else 0) +
  (if f.domain_has_digits then 0.2 else 0) +
  (if f.has_port then 0.35 else 0) +
  (if f.likely_new_domain then 0.25 else 0) +
  (if f.has_punycode then 0.70 else 0) +
  (if f.consecutive_consonants_max > 4 then 0.2 else 0)

/-- The `weights['structure']` accumulation. -/
def urlStructureW (f : URLFeatures) : ℚ :=
  (if f.at_redirect_trick then 0.90 else if f.at_sign then 0.60 else 0) +
  (if f.double_slash_redirect then 0.4 else 0) +
  (if f.hyphen_count > 3 then 0.3 else 0) +
  (if f.dot_count > 4 then 0.3 else 0) +
  (if !f.uses_https then 0.30 else 0) +
  (if f.has_suspicious_params then 0.30 else 0) +
  (if f.has_encoded_chars then 0.15 else 0) +
  (if f.has_suspicious_extension then 0.55 else 0)

/-- The `weights['tokens']` accumulation: `min(count * 0.15, 0.85)`. -/
def urlTokensW (f : URLFeatures) : ℚ :=
  if f.suspicious_token_count > 0 then
    min ((f.suspicious_token_count : ℚ) * 0.15) 0.85
  else 0

/-- The `weights['entropy']` accumulation. -/
def urlEntropyW (f : URLFeatures) : ℚ :=
  (if f.url_entropy > 4.5 then 0.3 else 0) +
  (if f.domain_entropy > 3.8 then 0.3 else 0)

/-- The reasons appended before the combined HIGH-RISK rule, in source order
(formatted numeric/name payloads elided from the fixed message texts). -/
def urlReasons (f : URLFeatures) : List String :=
  (if f.blacklist_pattern_match then
    ["⛔ Matches known phishing URL pattern (Safe Browsing / PhishTank rules)"] else []) ++
  (if f.brand_impersonation then
    (if f.homoglyph_brand_attack then
      ["🔡 Homoglyph brand attack: domain mimics brand using lookalike characters"]
     else if f.brand_similarity ≥ 0.8 then
      ["🏷️ High-confidence brand impersonation"]
     else ["🏷️ Possible brand impersonation detected in URL"]) else []) ++
  (if f.url_length > 75 then ["📏 Unusually long URL"] else []) ++
  (if f.url_length > 150 then ["📏 Extremely long URL — common obfuscation tactic"] else []) ++
  (if f.has_ip_address then ["🌐 URL uses raw IP address instead of domain name"] else []) ++
  (if f.subdomain_count > 2 then
    ["🌐 Excessive subdomains — common in free-hosting phishing"] else []) ++
  (if f.has_high_risk_tld then
    ["⚠️ High-risk free TLD (.tk/.ml/.ga/.cf/.gq) — heavily abused by phishers"]
   else if f.has_suspicious_tld then ["⚠️ Suspicious top-level domain"] else []) ++
  (if f.is_shortened then
    ["🔗 URL shortener detected — hides true destination, high phishing indicator"] else []) ++
  (if f.domain_has_digits then ["🔢 Domain contains digits (brand-mimicry pattern)"] else []) ++
  (if f.has_port then ["🔌 Non-standard port in URL"] else []) ++
  (if f.likely_new_domain then
    ["🆕 Domain appears newly registered (age heuristic) — high phishing risk"] else []) ++
  (if f.at_redirect_trick then
    ["🚨 URL Redirection Trick — classic phishing deception"]
   else if f.at_sign then
    ["⚠️ @ symbol in URL — browser treats everything before @ as credentials and redirects to the domain after it"]
   else []) ++
  (if f.double_slash_redirect then ["// redirect detected in URL path"] else []) ++
  (if f.hyphen_count > 3 then ["Excessive hyphens — phishing domain pattern"] else []) ++
  (if f.dot_count > 4 then ["Excessive dots"] else []) ++
  (if !f.uses_https then ["🔓 No HTTPS — unencrypted connection, strong phishing signal"] else []) ++
  (if f.suspicious_token_count > 0 then ["🏷️ Suspicious keywords in URL"] else []) ++
  (if f.has_suspicious_params then
    ["🔑 Suspicious URL parameters detected — used in phishing redirect chains"] else []) ++
  (if f.has_punycode then
    ["🌐 Punycode/IDN domain detected (xn--) — used to create unicode look-alike domains"] else []) ++
  (if f.subdomain_brand_spoof then
    ["🎭 Subdomain spoofing: brand used as subdomain to appear legitimate — actual domain is different"] else [])

/-- The reasons appended after the combined HIGH-RISK rule (entropy, encoded
characters, suspicious extension, consonant clusters), in source order. -/
def urlReasonsPost (f : URLFeatures) : List String :=
  (if f.url_entropy > 4.5 then ["🔀 High URL entropy — possible character obfuscation"] else []) ++
  (if f.domain_entropy > 3.8 then ["🔀 High domain entropy — random/generated domain"] else []) ++
  (if f.has_encoded_chars then ["Encoded characters (%xx) in URL"] else []) ++
  (if f.has_suspicious_extension then
    ["🗂️ Suspicious file extension (.exe/.apk/.ps1 etc.)"] else []) ++
  (if f.consecutive_consonants_max > 4 then
    ["Domain contains unusual consonant clusters"] else [])

/-- The combined HIGH-RISK rule (url_analyzer.py lines 410-421):
`score_boost = min(score * 1.35, 1.0)`, applied only when brand similarity
exceeds 0.75, at least one suspicious token is present, and the boost
exceeds the current score. -/
def urlBoostStep (score : ℚ) (reasons : List String) (f : URLFeatures) :
    ℚ × List String :=
  if f.brand_similarity > 0.75 ∧ f.suspicious_token_count > 0 ∧
      min (score * 1.35) 1 > score then
    (min (score * 1.35) 1,
     reasons ++ ["🚨 HIGH RISK: brand impersonation combined with suspicious keywords — strong phishing signal"])
  else (score, reasons)

/-- The weighted category sum (url_analyzer.py lines 442-454): each bucket
capped at 1.0 and multiplied by its fixed category weight, in dict order. -/
def urlBaseScore (f : URLFeatures) : ℚ :=
  min (urlBlacklistW f) 1 * 0.25 + min (urlBrandW f) 1 * 0.20 +
  min (urlDomainW f) 1 * 0.22 + min (urlStructureW f) 1 * 0.15 +
  min (urlTokensW f) 1 * 0.10 + min (urlEntropyW f) 1 * 0.05 +
  min (urlLengthW f) 1 * 0.03

/-- `flagged = sum(1 for v in weights.values() if v > 0.2)`, over the weights
dict in its insertion order (length, structure, tokens, entropy, domain,
blacklist, brand). -/
def urlFlagged (f : URLFeatures) : ℕ :=
  (([urlLengthW f, urlStructureW f, urlTokensW f, urlEntropyW f,
     urlDomainW f, urlBlacklistW f, urlBrandW f].filter
    (fun v => decide (v > 0.2))).length)

/-- `URLAnalyzer._calculate_score` (url_analyzer.py lines 285-475): reason
accumulation, the (dead) HIGH-RISK rule at its source position — where the
running score is still the initial 0.0 — the weighted category sum, the
clamp, and multi-category amplification.  Returns (score, reasons,
confidence); the rule's reason would be inserted between `urlReasons` and
`urlReasonsPost`, exactly as in the source. -/
def calculateScoreURL (f : URLFeatures) : ℚ × List String × String :=
  let score : ℚ := 0
  let reasons := urlReasons f
  let boosted := urlBoostStep score reasons f
  let score := boosted.1
  let reasons := boosted.2 ++ urlReasonsPost f
  let score := score + urlBaseScore f
  let score := min (max score 0) 1
  let flagged := urlFlagged f
  let score :=
    if flagged ≥ 4 then min (score * 1.5) 1
    else if flagged ≥ 3 then min (score * 1.3) 1
    else score
  let reasons :=
    if flagged ≥ 4 then reasons ++ ["🚨 Multiple high-risk categories triggered simultaneously"]
    else if flagged ≥ 3 then reasons ++ ["⚠️ Multiple risk categories triggered"]
    else reasons
  let confidence :=
    if score > 0.75 ∧ flagged ≥ 3 then "HIGH"
    else if score > 0.4 ∨ flagged ≥ 2 then "MEDIUM"
    else "LOW"
  (score, reasons, confidence)

/-- The URL engine's `AnalysisResult` (the `features` echo is omitted). -/
structure URLResult where
  engine : String
  score : ℚ
  reasons : List String
  confidence : String
  is_suspicious : Bool

/-- `URLAnalyzer.analyze` (url_analyzer.py lines 116-137): `some features`
models successful extraction, `none` the `except` branch, which returns the
fixed fallback dict with score 0.5, LOW confidence and `is_suspicious: True`. -/
def urlAnalyze (ef : Option URLFeatures) : URLResult :=
  match ef with
  | some f =>
    let r := calculateScoreURL f
    { engine := "url_analyzer", score := roundScore r.1, reasons := r.2.1,
      confidence := r.2.2, is_suspicious := decide (r.1 > 0.5) }
  | none =>
    { engine := "url_analyzer", score := 0.5, reasons := ["Analysis error"],
      confidence := "LOW", is_suspicious := true }

/-- A rational that is a non-negative multiple of 1/20 — the granularity of
every URL category bucket (all bucket increments are multiples of 0.05). -/
def IsGrain20 (a : ℚ) : Prop := ∃ n : ℕ, a = (n : ℚ) / 20

lemma grain_add {a b : ℚ} (ha : IsGrain20 a) (hb : IsGrain20 b) : IsGrain20 (a + b) := by
  obtain ⟨n, rfl⟩ := ha
  obtain ⟨m, rfl⟩ := hb
  exact ⟨n + m, by push_cast; ring⟩

lemma grain_ite (c : Prop) [Decidable c] {a b : ℚ} (ha : IsGrain20 a)
    (hb : IsGrain20 b) : IsGrain20 (if c then a else b) := by
  split
  · exact ha
  · exact hb

lemma grain_min {a b : ℚ} (ha : IsGrain20 a) (hb : IsGrain20 b) : IsGrain20 (min a b) := by
  obtain ⟨n, hn⟩ := ha
  obtain ⟨m, hm⟩ := hb
  rcases le_total a b with h | h
  · rw [min_eq_left h]; exact ⟨n, hn⟩
  · rw [min_eq_right h]; exact ⟨m, hm⟩

lemma urlBlacklistW_grain (f : URLFeatures) : IsGrain20 (urlBlacklistW f) :=
  grain_ite _ ⟨18, by norm_num⟩ ⟨0, by norm_num⟩

lemma urlBrandW_grain (f : URLFeatures) : IsGrain20 (urlBrandW f) :=
  grain_add
    (grain_ite _
      (grain_ite _ ⟨17, by norm_num⟩
        (grain_ite _ ⟨15, by norm_num⟩ ⟨10, by norm_num⟩))
      ⟨0, by norm_num⟩)
    (grain_ite _ ⟨16, by norm_num⟩ ⟨0, by norm_num⟩)

lemma urlLengthW_grain (f : URLFeatures) : IsGrain20 (urlLengthW f) :=
  grain_add (grain_ite _ ⟨5, by norm_num⟩ ⟨0, by norm_num⟩)
    (grain_ite _ ⟨5, by norm_num⟩ ⟨0, by norm_num⟩)

lemma urlDomainW_grain (f : URLFeatures) : IsGrain20 (urlDomainW f) :=
  grain_add (grain_add (grain_add (grain_add (grain_add (grain_add (grain_add
    (grain_add
      (grain_ite _ ⟨17, by norm_num⟩ ⟨0, by norm_num⟩)
      (grain_ite _ ⟨8, by norm_num⟩ ⟨0, by norm_num⟩))
    (grain_ite _ ⟨11, by norm_num⟩ (grain_ite _ ⟨8, by norm_num⟩ ⟨0, by norm_num⟩)))
    (grain_ite _ ⟨8, by norm_num⟩ ⟨0, by norm_num⟩))
    (grain_ite _ ⟨4, by norm_num⟩ ⟨0, by norm_num⟩))
    (grain_ite _ ⟨7, by norm_num⟩ ⟨0, by norm_num⟩))
    (grain_ite _ ⟨5, by norm_num⟩ ⟨0, by norm_num⟩))
    (grain_ite _ ⟨14, by norm_num⟩ ⟨0, by norm_num⟩))
    (grain_ite _ ⟨4, by norm_num⟩ ⟨0, by norm_num⟩)

lemma urlStructureW_grain (f : URLFeatures) : IsGrain20 (urlStructureW f) :=
  grain_add (grain_add (grain_add (grain_add (grain_add (grain_add (grain_add
    (grain_ite _ ⟨18, by norm_num⟩ (grain_ite _ ⟨12, by norm_num⟩ ⟨0, by norm_num⟩))
    (grain_ite _ ⟨8, by norm_num⟩ ⟨0, by norm_num⟩))
    (grain_ite _ ⟨6, by norm_num⟩ ⟨0, by norm_num⟩))
    (grain_ite _ ⟨6, by norm_num⟩ ⟨0, by norm_num⟩))
    (grain_ite _ ⟨6, by norm_num⟩ ⟨0, by norm_num⟩))
    (grain_ite _ ⟨6, by norm_num⟩ ⟨0, by norm_num⟩))
    (grain_ite _ ⟨3, by norm_num⟩ ⟨0, by norm_num⟩))
    (grain_ite _ ⟨11, by norm_num⟩ ⟨0, by norm_num⟩)

lemma urlTokensW_grain (f : URLFeatures) : IsGrain20 (urlTokensW f) :=
  grain_ite _
    (grain_min ⟨3 * f.suspicious_token_count, by push_cast; ring_nf⟩
      ⟨17, by norm_num⟩)
    ⟨0, by norm_num⟩

lemma urlEntropyW_grain (f : URLFeatures) : IsGrain20 (urlEntropyW f) :=
  grain_add (grain_ite _ ⟨6, by norm_num⟩ ⟨0, by norm_num⟩)
    (grain_ite _ ⟨6, by norm_num⟩ ⟨0, by norm_num⟩)

/-- Capping a twentieth at 1 is the same as capping its numerator at 20. -/
lemma nat_div_min_one (n d : ℕ) (hd : 0 < d) :
    min ((n : ℚ) / d) 1 = ((min n d : ℕ) : ℚ) / d := by
  have hd' : (0 : ℚ) < d := by exact_mod_cast hd
  rcases le_total n d with h | h
  · rw [min_eq_left h, min_eq_left]
    rw [div_le_one hd']
    exact_mod_cast h
  · rw [min_eq_right h, div_self (ne_of_gt hd'), min_eq_right]
    rw [one_le_div hd']
    exact_mod_cast h

lemma nat_div_min_one20 (n : ℕ) :
    min ((n : ℚ) / 20) 1 = ((min n 20 : ℕ) : ℚ) / 20 := by
  exact_mod_cast nat_div_min_one n 20 (by norm_num)

lemma nat_div_min_one20000 (n : ℕ) :
    min ((n : ℚ) / 20000) 1 = ((min n 20000 : ℕ) : ℚ) / 20000 := by
  exact_mod_cast nat_div_min_one n 20000 (by norm_num)

/-- The weighted category base score is an exact multiple of 1/2000 in [0,1]. -/
lemma urlBaseScore_form (f : URLFeatures) :
    ∃ M : ℕ, M ≤ 2000 ∧ urlBaseScore f = (M : ℚ) / 2000 := by
  obtain ⟨n1, h1⟩ := urlBlacklistW_grain f
  obtain ⟨n2, h2⟩ := urlBrandW_grain f
  obtain ⟨n3, h3⟩ := urlDomainW_grain f
  obtain ⟨n4, h4⟩ := urlStructureW_grain f
  obtain ⟨n5, h5⟩ := urlTokensW_grain f
  obtain ⟨n6, h6⟩ := urlEntropyW_grain f
  obtain ⟨n7, h7⟩ := urlLengthW_grain f
  refine ⟨25 * min n1 20 + 20 * min n2 20 + 22 * min n3 20 + 15 * min n4 20 +
    10 * min n5 20 + 5 * min n6 20 + 3 * min n7 20, by omega, ?_⟩
  unfold urlBaseScore
  rw [h1, h2, h3, h4, h5, h6, h7]
  rw [nat_div_min_one20 n1, nat_div_min_one20 n2, nat_div_min_one20 n3,
    nat_div_min_one20 n4, nat_div_min_one20 n5, nat_div_min_one20 n6,
    nat_div_min_one20 n7]
  push_cast
  ring

/-- The URL scoring pipeline with the combined HIGH-RISK (×1.35) rule deleted:
weighted category sum, clamp, multi-category amplification.  Comparison
definition used to show the rule in `_calculate_score` can never fire. -/
def calculateScoreURLNoBoost (f : URLFeatures) : ℚ × List String × String :=
  let reasons := urlReasons f ++ urlReasonsPost f
  let score := min (max (urlBaseScore f) 0) 1
  let flagged := urlFlagged f
  let score :=
    if flagged ≥ 4 then min (score * 1.5) 1
    else if flagged ≥ 3 then min (score * 1.3) 1
    else score
  let reasons :=
    if flagged ≥ 4 then reasons ++ ["🚨 Multiple high-risk categories triggered simultaneously"]
    else if flagged ≥ 3 then reasons ++ ["⚠️ Multiple risk categories triggered"]
    else reasons
  let confidence :=
    if score > 0.75 ∧ flagged ≥ 3 then "HIGH"
    else if score > 0.4 ∨ flagged ≥ 2 then "MEDIUM"
    else "LOW"
  (score, reasons, confidence)

/-- The HIGH-RISK rule's guard compares `min(score * 1.35, 1.0)` against the
running score, which is still the initial 0.0 at that point of
`_calculate_score`, so the guard never holds. -/
lemma urlBoost_guard_false (f : URLFeatures) :
    ¬(f.brand_similarity > 0.75 ∧ f.suspicious_token_count > 0 ∧
      min ((0 : ℚ) * 1.35) 1 > 0) := by
  rintro ⟨-, -, h⟩
  norm_num at h

lemma calculateScoreURL_eq_noBoost (f : URLFeatures) :
    calculateScoreURL f = calculateScoreURLNoBoost f := by
  simp only [calculateScoreURL, calculateScoreURLNoBoost, urlBoostStep]
  rw [if_neg (urlBoost_guard_false f)]
  simp only [zero_add]

/-- Every final URL score is `k / 20000` with `k` bounded by 20000 and
divisible by 10, 13 or 15 (or capped at exactly 20000), reflecting the base
score's 1/2000 granularity and the ×1.5 / ×1.3 amplification. -/
lemma urlScore_form (f : URLFeatures) :
    ∃ k : ℕ, k ≤ 20000 ∧ (k % 10 = 0 ∨ k % 13 = 0 ∨ k % 15 = 0 ∨ k = 20000) ∧
      (calculateScoreURL f).1 = (k : ℚ) / 20000 := by
  obtain ⟨M, hM, hbase⟩ := urlBaseScore_form f
  have hb0 : (0 : ℚ) ≤ urlBaseScore f := by
    rw [hbase]
    positivity
  have hb1 : urlBaseScore f ≤ 1 := by
    rw [hbase, div_le_one (by norm_num : (0 : ℚ) < 2000)]
    exact_mod_cast by omega
  have hscore : (calculateScoreURL f).1 =
      (if urlFlagged f ≥ 4 then min (urlBaseScore f * 1.5) 1
       else if urlFlagged f ≥ 3 then min (urlBaseScore f * 1.3) 1
       else urlBaseScore f) := by
    rw [calculateScoreURL_eq_noBoost]
    simp only [calculateScoreURLNoBoost]
    rw [max_eq_left hb0, min_eq_left hb1]
  rw [hscore]
  by_cases h4 : urlFlagged f ≥ 4
  · rw [if_pos h4]
    refine ⟨min (15 * M) 20000, Nat.min_le_right _ _, by omega, ?_⟩
    rw [hbase, show (M : ℚ) / 2000 * 1.5 = ((15 * M : ℕ) : ℚ) / 20000 by push_cast; ring,
      nat_div_min_one20000]
  · rw [if_neg h4]
    by_cases h3 : urlFlagged f ≥ 3
    · rw [if_pos h3]
      refine ⟨min (13 * M) 20000, Nat.min_le_right _ _, by omega, ?_⟩
      rw [hbase, show (M : ℚ) / 2000 * 1.3 = ((13 * M : ℕ) : ℚ) / 20000 by push_cast; ring,
        nat_div_min_one20000]
    · rw [if_neg h3]
      refine ⟨10 * M, by omega, by omega, ?_⟩
      rw [hbase]
      push_cast
      ring

/-- Rounding `k / 20000` to 4 decimals gives `(k / 2) / 10000` with natural
division in the numerator. -/
lemma roundScore_k20000 (k : ℕ) :
    roundScore ((k : ℚ) / 20000) = ((k / 2 : ℕ) : ℚ) / 10000 := by
  unfold roundScore
  rw [show (k : ℚ) / 20000 * 10000 = (k : ℚ) / 2 by ring]
  have hfl : Int.floor ((k : ℚ) / 2) = ((k / 2 : ℕ) : ℤ) := by
    rw [Int.floor_eq_iff]
    constructor
    · rw [le_div_iff₀ (by norm_num : (0 : ℚ) < 2)]
      push_cast
      exact_mod_cast Nat.cast_le.mpr (Nat.div_mul_le_self k 2)
    · rw [div_lt_iff₀ (by norm_num : (0 : ℚ) < 2)]
      push_cast
      have : k < (k / 2 + 1) * 2 := by omega
      exact_mod_cast this
  rw [hfl]
  simp only [Int.cast_natCast]

/-- On the success path, `is_suspicious` (computed from the pre-rounding
score) agrees with comparing the rounded score against 0.5: the reachable
score grid never hits the interval (0.5, 0.5001). -/
lemma url_susp_round (k : ℕ) (hk : k ≤ 20000)
    (hmod : k % 10 = 0 ∨ k % 13 = 0 ∨ k % 15 = 0 ∨ k = 20000) :
    decide ((k : ℚ) / 20000 > 0.5) = decide (roundScore ((k : ℚ) / 20000) > 0.5) := by
  rw [roundScore_k20000, decide_eq_decide]
  have h1 : ((k : ℚ) / 20000 > 0.5) ↔ k > 10000 := by
    rw [gt_iff_lt, lt_div_iff₀ (by norm_num : (0 : ℚ) < 20000)]
    norm_num
  have h2 : (((k / 2 : ℕ) : ℚ) / 10000 > 0.5) ↔ k / 2 > 5000 := by
    rw [gt_iff_lt, lt_div_iff₀ (by norm_num : (0 : ℚ) < 10000)]
    norm_num
  rw [h1, h2]
  omega

lemma urlAnalyze_some_susp (f : URLFeatures) :
    (urlAnalyze (some f)).is_suspicious
      = decide ((urlAnalyze (some f)).score > 0.5) := by
  obtain ⟨k, hk, hmod, hs⟩ := urlScore_form f
  show decide ((calculateScoreURL f).1 > 0.5)
      = decide (roundScore (calculateScoreURL f).1 > 0.5)
  rw [hs]
  exact url_susp_round k hk hmod

lemma urlAnalyze_score_bounds (ef : Option URLFeatures) :
    0 ≤ (urlAnalyze ef).score ∧ (urlAnalyze ef).score ≤ 1 := by
  cases ef with
  | none =>
    constructor <;> norm_num [urlAnalyze]
  | some f =>
    obtain ⟨k, hk, -, hs⟩ := urlScore_form f
    have hsc : (urlAnalyze (some f)).score = roundScore ((k : ℚ) / 20000) := by
      show roundScore (calculateScoreURL f).1 = _
      rw [hs]
    rw [hsc]
    constructor
    · exact roundScore_nonneg (by positivity)
    · refine roundScore_le_one ?_
      rw [div_le_one (by norm_num : (0 : ℚ) < 20000)]
      exact_mod_cast hk

/-- Feature vector of a URL in the escalation rule's intended trigger zone
(e.g. `http://paypal-login.com/verify-account`): brand impersonation with
similarity 0.85 and two suspicious tokens, everything else benign. -/
def urlBoostExample : URLFeatures :=
  { blacklist_pattern_match := false, brand_impersonation := true,
    brand_similarity := 0.85, homoglyph_brand_attack := false,
    url_length := 40, has_ip_address := false, subdomain_count := 0,
    has_high_risk_tld := false, has_suspicious_tld := false, is_shortened := false,
    domain_has_digits := false, has_port := false, likely_new_domain := false,
    at_redirect_trick := false, at_sign := false, double_slash_redirect := false,
    hyphen_count := 1, dot_count := 1, uses_https := true,
    suspicious_token_count := 2, has_suspicious_params := false,
    has_punycode := false, subdomain_brand_spoof := false,
    url_entropy := 3, domain_entropy := 3, has_encoded_chars := false,
    has_suspicious_extension := false, consecutive_consonants_max := 2 }

/-- C2 (code bug): the ×1.35 escalation rule in `_calculate_score` can never
fire, because it runs while the running score is still 0.0 — before the
weighted category sum is added — so `min(0 × 1.35, 1) > 0` is false.  The
whole pipeline collapses to the rule-free pipeline; on the example features
(similarity 0.85 > 0.75, two suspicious tokens) the final score is exactly
the weighted base 0.18, even though the rule's own guard would accept the
boosted value min(0.18 × 1.35, 1) = 0.243. -/
theorem c2_boost_rule_never_fires :
    (∀ f : URLFeatures, calculateScoreURL f = calculateScoreURLNoBoost f) ∧
    urlBoostExample.brand_similarity > 0.75 ∧
    urlBoostExample.suspicious_token_count > 0 ∧
    (calculateScoreURL urlBoostExample).1 = 0.18 ∧
    min ((0.18 : ℚ) * 1.35) 1 > 0.18 := by
  refine ⟨calculateScoreURL_eq_noBoost, by norm_num [urlBoostExample],
    by norm_num [urlBoostExample], ?_, by norm_num⟩
  have hbl : urlBlacklistW urlBoostExample = 0 := by
    norm_num [urlBlacklistW, urlBoostExample]
  have hbr : urlBrandW urlBoostExample = 0.75 := by
    norm_num [urlBrandW, urlBoostExample]
  have hdom : urlDomainW urlBoostExample = 0 := by
    norm_num [urlDomainW, urlBoostExample]
  have hstr : urlStructureW urlBoostExample = 0 := by
    norm_num [urlStructureW, urlBoostExample]
  have htok : urlTokensW urlBoostExample = 0.3 := by
    norm_num [urlTokensW, urlBoostExample, min_def]
  have hent : urlEntropyW urlBoostExample = 0 := by
    norm_num [urlEntropyW, urlBoostExample]
  have hlen : urlLengthW urlBoostExample = 0 := by
    norm_num [urlLengthW, urlBoostExample]
  have hbase : urlBaseScore urlBoostExample = 0.18 := by
    rw [urlBaseScore, hbl, hbr, hdom, hstr, htok, hent, hlen]
    norm_num [min_def]
  have hfl : urlFlagged urlBoostExample = 2 := by
    rw [urlFlagged, hlen, hstr, htok, hent, hdom, hbl, hbr]
    have e1 : (decide ((0 : ℚ) > 0.2)) = false := by norm_num
    have e2 : (decide ((0.3 : ℚ) > 0.2)) = true := by norm_num
    have e3 : (decide ((0.75 : ℚ) > 0.2)) = true := by norm_num
    simp [List.filter, e1, e2, e3]
  rw [calculateScoreURL_eq_noBoost]
  simp only [calculateScoreURLNoBoost, hbase, hfl]
  norm_num [min_def, max_def]

/- ======================================================================
   NLP text engine — backend/engines/nlp_engine.py
   ====================================================================== -/

/-- The `content_type` channel parameter of `NLPEngine.analyze`. -/
inductive ContentType
  | email
  | sms
  | voice
deriving DecidableEq

/-- Abstracted inputs of `NLPEngine.analyze`'s combination stage: the match
lists each `_analyze_patterns` call receives from `re.findall` (per
category), the outputs of the regex-based helper scorers
(`_analyze_sender`, `_analyze_subject`, `_analyze_linguistic_features`,
`_detect_brand_impersonation`), the `https?://` link test, the count of
matched legitimate indicators, and whether the subject/full text are empty. -/
structure NLPCats where
  urgencyM : List String
  credentialM : List String
  socialM : List String
  impersonationM : List String
  financialM : List String
  senderScore : ℚ
  senderReasons : List String
  subjectNonempty : Bool
  subjectScore : ℚ
  linguisticScore : ℚ
  linguisticReasons : List String
  regionalM : List String
  techM : List String
  brandScore : ℚ
  brandReasons : List String
  hasLink : Bool
  legitCount : ℕ
  textEmpty : Bool

/-- `NLPEngine._analyze_patterns` (nlp_engine.py lines 321-335) over its
matched strings: score `min(matches × 0.25, 1.0)`, up to 3 example reasons. -/
def analyzePatterns (found : List String) (category : String) : ℚ × List String :=
  if found = [] then (0, [])
  else
    (min ((found.length : ℚ) * 0.25) 1,
     (found.take 3).map (fun m => category ++ ": \x27" ++ m ++ "\x27 detected"))

/-- Channel-specific weight dicts (nlp_engine.py lines 217-228). -/
def nlpWeights (ct : ContentType) : List (String × ℚ) :=
  match ct with
  | .sms =>
    [("urgency", 0.20), ("credential", 0.20), ("social", 0.10),
     ("financial", 0.15), ("sender", 0.10), ("linguistic", 0.05),
     ("regional", 0.10), ("tech", 0.05), ("brand", 0.05)]
  | _ =>
    [("urgency", 0.15), ("credential", 0.20), ("social", 0.10),
     ("impersonation", 0.08), ("financial", 0.15), ("sender", 0.12),
     ("subject", 0.05), ("linguistic", 0.08), ("brand", 0.07)]

/-- `weights.get(key, 0.0)`. -/
def nlpW (ct : ContentType) (key : String) : ℚ :=
  (dictLookup (nlpWeights ct) key).getD 0

/-- The NLP engine's `AnalysisResult` (the `categories` and `features`
echoes are omitted). -/
structure NLPResult where
  engine : String
  content_type : ContentType
  score : ℚ
  reasons : List String
  is_suspicious : Bool
  confidence : String

/-- `NLPEngine.analyze` (nlp_engine.py lines 141-296): the empty-input early
return, per-category pattern scores, channel-gated regional/tech-support
categories, subject gating, legitimate-indicator reduction, channel weight
vector, multi-category and triple-threat amplification, clamping, rounding,
and the reasons list `all_reasons[:10] + amplification messages`. -/
def nlpAnalyze (c : NLPCats) (ct : ContentType) : NLPResult :=
  if c.textEmpty then
    { engine := "nlp_engine", content_type := ct, score := 0.0,
      reasons := ["Empty text content"], is_suspicious := false,
      confidence := "LOW" }
  else
    let urgency := analyzePatterns c.urgencyM "Urgency"
    let credential := analyzePatterns c.credentialM "Credential Request"
    let social := analyzePatterns c.socialM "Social Engineering"
    let impersonation := analyzePatterns c.impersonationM "Impersonation"
    let financial := analyzePatterns c.financialM "Financial Scam"
    let subjectScore := if c.subjectNonempty then c.subjectScore else 0
    let regional :=
      if ct = ContentType.sms then analyzePatterns c.regionalM "Regional SMS Scam"
      else (0, [])
    let tech :=
      if ct = ContentType.sms ∨ ct = ContentType.voice then
        analyzePatterns c.techM "Tech Support Scam"
      else (0, [])
    let legitReduction := min ((c.legitCount : ℚ) * 0.05) 0.15
    let score :=
      urgency.1 * nlpW ct "urgency" + credential.1 * nlpW ct "credential" +
      social.1 * nlpW ct "social" + impersonation.1 * nlpW ct "impersonation" +
      financial.1 * nlpW ct "financial" + c.senderScore * nlpW ct "sender" +
      subjectScore * nlpW ct "subject" + c.linguisticScore * nlpW ct "linguistic" +
      c.brandScore * nlpW ct "brand" + regional.1 * nlpW ct "regional" +
      tech.1 * nlpW ct "tech"
    let score := max (score - legitReduction) 0
    let flagged :=
      (([urgency.1, credential.1, social.1, financial.1, c.senderScore,
         c.brandScore].filter (fun s => decide (s > 0.3))).length)
    let score :=
      if flagged ≥ 4 then min (score * 1.5) 1
      else if flagged ≥ 3 then min (score * 1.4) 1
      else score
    let ampReasons :=
      if flagged ≥ 4 then ["🚨 Multiple phishing categories simultaneously triggered"]
      else if flagged ≥ 3 then ["⚠️ Multiple phishing indicator categories detected"]
      else []
    let tripleThreat := urgency.1 > 0.3 ∧ c.hasLink ∧ financial.1 > 0.3
    let score := if tripleThreat then min (score * 1.3) 1 else score
    let ampReasons :=
      if tripleThreat then
        ampReasons ++ ["🚨 Triple threat: urgency + embedded link + financial request detected"]
      else ampReasons
    let finalScore := roundScore (min (max score 0) 1)
    let allReasons :=
      urgency.2 ++ credential.2 ++ social.2 ++ impersonation.2 ++ financial.2 ++
      c.senderReasons ++ c.linguisticReasons ++ c.brandReasons ++
      regional.2 ++ tech.2
    let topReasons := allReasons.take 10 ++ ampReasons
    let confidence :=
      if finalScore > 0.75 ∧ flagged ≥ 3 then "HIGH"
      else if finalScore > 0.4 then "MEDIUM"
      else "LOW"
    { engine := "nlp_engine", content_type := ct, score := finalScore,
      reasons := topReasons, is_suspicious := decide (finalScore > 0.5),
      confidence := confidence }

lemma nlpAnalyze_score_bounds (c : NLPCats) (ct : ContentType) :
    0 ≤ (nlpAnalyze c ct).score ∧ (nlpAnalyze c ct).score ≤ 1 := by
  unfold nlpAnalyze
  split
  · norm_num
  · simp only []
    constructor
    · exact roundScore_nonneg (le_min (le_max_right _ _) (by norm_num))
    · exact roundScore_le_one (min_le_right _ _)

lemma nlpAnalyze_susp (c : NLPCats) (ct : ContentType) :
    (nlpAnalyze c ct).is_suspicious = decide ((nlpAnalyze c ct).score > 0.5) := by
  unfold nlpAnalyze
  split
  · norm_num
  · rfl

/-- The amplification messages `nlpAnalyze` appends after the 10-entry
truncation: the multi-category message (×1.5/×1.4 branch) followed by the
triple-threat message, as functions of the category scores. -/
def nlpAmpReasons (c : NLPCats) : List String :=
  let urgency := analyzePatterns c.urgencyM "Urgency"
  let credential := analyzePatterns c.credentialM "Credential Request"
  let social := analyzePatterns c.socialM "Social Engineering"
  let financial := analyzePatterns c.financialM "Financial Scam"
  let flagged :=
    (([urgency.1, credential.1, social.1, financial.1, c.senderScore,
       c.brandScore].filter (fun s => decide (s > 0.3))).length)
  let ampReasons :=
    if flagged ≥ 4 then ["🚨 Multiple phishing categories simultaneously triggered"]
    else if flagged ≥ 3 then ["⚠️ Multiple phishing indicator categories detected"]
    else []
  let tripleThreat := urgency.1 > 0.3 ∧ c.hasLink ∧ financial.1 > 0.3
  if tripleThreat then
    ampReasons ++ ["🚨 Triple threat: urgency + embedded link + financial request detected"]
  else ampReasons

lemma nlpAmpReasons_len (c : NLPCats) : (nlpAmpReasons c).length ≤ 2 := by
  unfold nlpAmpReasons
  simp only []
  split
  · split
    · simp
    · split <;> simp
  · split
    · simp
    · split <;> simp

/-- C9 (corrected): for non-empty input, the NLP reasons list is the fixed-
order concatenation of the categories' matched-indicator strings truncated to
the first 10 — but the amplification messages (multi-category and/or
triple-threat, at most 2) are then appended after the truncation, so the list
can reach 12 entries and contain non-indicator strings. -/
lemma nlpAnalyze_reasons_eq (c : NLPCats) (ct : ContentType)
    (h : c.textEmpty = false) :
    (nlpAnalyze c ct).reasons =
      ((analyzePatterns c.urgencyM "Urgency").2 ++
       (analyzePatterns c.credentialM "Credential Request").2 ++
       (analyzePatterns c.socialM "Social Engineering").2 ++
       (analyzePatterns c.impersonationM "Impersonation").2 ++
       (analyzePatterns c.financialM "Financial Scam").2 ++
       c.senderReasons ++ c.linguisticReasons ++ c.brandReasons ++
       (if ct = ContentType.sms then analyzePatterns c.regionalM "Regional SMS Scam"
        else ((0 : ℚ), ([] : List String))).2 ++
       (if ct = ContentType.sms ∨ ct = ContentType.voice then
         analyzePatterns c.techM "Tech Support Scam"
        else ((0 : ℚ), ([] : List String))).2).take 10 ++ nlpAmpReasons c := by
  have hne : ¬(c.textEmpty = true) := by simp [h]
  unfold nlpAnalyze nlpAmpReasons
  rw [if_neg hne]

theorem c9_reasons_truncation (c : NLPCats) (ct : ContentType)
    (h : c.textEmpty = false) :
    (nlpAnalyze c ct).reasons =
      ((analyzePatterns c.urgencyM "Urgency").2 ++
       (analyzePatterns c.credentialM "Credential Request").2 ++
       (analyzePatterns c.socialM "Social Engineering").2 ++
       (analyzePatterns c.impersonationM "Impersonation").2 ++
       (analyzePatterns c.financialM "Financial Scam").2 ++
       c.senderReasons ++ c.linguisticReasons ++ c.brandReasons ++
       (if ct = ContentType.sms then analyzePatterns c.regionalM "Regional SMS Scam"
        else ((0 : ℚ), ([] : List String))).2 ++
       (if ct = ContentType.sms ∨ ct = ContentType.voice then
         analyzePatterns c.techM "Tech Support Scam"
        else ((0 : ℚ), ([] : List String))).2).take 10 ++ nlpAmpReasons c ∧
    (nlpAmpReasons c).length ≤ 2 ∧
    (nlpAnalyze c ct).reasons.length ≤ 12 := by
  refine ⟨nlpAnalyze_reasons_eq c ct h, nlpAmpReasons_len c, ?_⟩
  rw [nlpAnalyze_reasons_eq c ct h, List.length_append]
  exact le_trans (Nat.add_le_add (List.length_take_le _ _) (nlpAmpReasons_len c))
    (by norm_num)

/-- Category match lists of an email such as "URGENT: your account is
suspended, payment failed — verify your account, click here before your
subscription expires": three urgency, credential and social matches and two
financial matches, giving 11 indicator reasons and the multi-category
amplification. -/
def nlpTruncExample : NLPCats :=
  { urgencyM := ["urgent", "expire", "suspended"],
    credentialM := ["verify your account", "click here", "reset password"],
    socialM := ["customer", "congratulations", "free gift"],
    impersonationM := [],
    financialM := ["payment failed", "invoice due"],
    senderScore := 0, senderReasons := [],
    subjectNonempty := false, subjectScore := 0,
    linguisticScore := 0, linguisticReasons := [],
    regionalM := [], techM := [],
    brandScore := 0, brandReasons := [],
    hasLink := false, legitCount := 0, textEmpty := false }

lemma nlpAmpReasons_example :
    nlpAmpReasons nlpTruncExample
      = ["🚨 Multiple phishing categories simultaneously triggered"] := by
  have h1 : (analyzePatterns nlpTruncExample.urgencyM "Urgency").1 = 0.75 := by
    show (analyzePatterns ["urgent", "expire", "suspended"] "Urgency").1 = 0.75
    unfold analyzePatterns
    rw [if_neg (List.cons_ne_nil _ _)]
    norm_num [min_def]
  have h2 : (analyzePatterns nlpTruncExample.credentialM "Credential Request").1 = 0.75 := by
    show (analyzePatterns ["verify your account", "click here", "reset password"]
      "Credential Request").1 = 0.75
    unfold analyzePatterns
    rw [if_neg (List.cons_ne_nil _ _)]
    norm_num [min_def]
  have h3 : (analyzePatterns nlpTruncExample.socialM "Social Engineering").1 = 0.75 := by
    show (analyzePatterns ["customer", "congratulations", "free gift"]
      "Social Engineering").1 = 0.75
    unfold analyzePatterns
    rw [if_neg (List.cons_ne_nil _ _)]
    norm_num [min_def]
  have h4 : (analyzePatterns nlpTruncExample.financialM "Financial Scam").1 = 0.5 := by
    show (analyzePatterns ["payment failed", "invoice due"] "Financial Scam").1 = 0.5
    unfold analyzePatterns
    rw [if_neg (List.cons_ne_nil _ _)]
    norm_num [min_def]
  unfold nlpAmpReasons
  simp only []
  rw [h1, h2, h3, h4]
  rw [show nlpTruncExample.senderScore = 0 from rfl,
    show nlpTruncExample.brandScore = 0 from rfl,
    show nlpTruncExample.hasLink = false from rfl]
  have d075 : decide ((0.75 : ℚ) > 0.3) = true := by norm_num
  have d05 : decide ((0.5 : ℚ) > 0.3) = true := by norm_num
  have d0 : decide ((0 : ℚ) > 0.3) = false := by norm_num
  simp [List.filter, d075, d05, d0]

/-- C9 counterexample: on `nlpTruncExample` the returned reasons list has 11
entries — more than the 10 the claim allows — because the multi-category
amplification message is appended after the truncation. -/
theorem c9_counterexample_length_11 :
    (nlpAnalyze nlpTruncExample ContentType.email).reasons.length = 11 := by
  rw [nlpAnalyze_reasons_eq nlpTruncExample ContentType.email rfl,
    nlpAmpReasons_example, List.length_append, List.length_take]
  simp [analyzePatterns, nlpTruncExample]

/-- C9 witness: the amended statement applied at the concrete example. -/
theorem c9_reasons_truncation_witness :
    nlpTruncExample.textEmpty = false ∧
    (nlpAmpReasons nlpTruncExample).length ≤ 2 ∧
    (nlpAnalyze nlpTruncExample ContentType.email).reasons.length ≤ 12 :=
  ⟨rfl, (c9_reasons_truncation nlpTruncExample ContentType.email rfl).2.1,
   (c9_reasons_truncation nlpTruncExample ContentType.email rfl).2.2⟩

/- ======================================================================
   HTML visual engine — backend/engines/visual_engine.py
   ====================================================================== -/

/-- Abstracted regex/string signals of `VisualEngine.analyze`
(visual_engine.py lines 95-238): each field is the outcome of one of the
HTML scans the scoring additions read; `brandHit` is the first spoofed
brand's element-hit count when the brand-spoofing loop finds a match with
total hits ≥ 2 and the brand absent from the URL. -/
structure VisualSignals where
  htmlEmpty : Bool
  has_password : Bool
  has_otp : Bool
  has_cc : Bool
  has_pan : Bool
  has_pin : Bool
  has_cred_form : Bool
  form_external : Bool
  hidden_count : ℕ
  dangerous_input_pattern : Bool
  brandHit : Option ℕ
  login_keywords : ℕ
  url_in_legit_set : Bool
  is_minimal : Bool
  has_iframe : Bool
  js_obfuscation : Bool
  js_keylogger : Bool
  js_clipboard : Bool
  right_click_block : Bool
  anti_inspect : Bool

/-- The visual engine's `AnalysisResult` (the `features` and
`brand_detected` echoes are omitted). -/
structure VisualResult where
  engine : String
  score : ℚ
  reasons : List String
  is_suspicious : Bool
  confidence : String

/-- `VisualEngine.analyze`: additive signal scoring, clamp to [0,1], 4-decimal
rounding; empty HTML short-circuits to the fixed 0.3 / LOW result.  Reason
texts keep their fixed descriptive parts. -/
def visualAnalyze (v : VisualSignals) : VisualResult :=
  if v.htmlEmpty then
    { engine := "visual_engine", score := 0.3,
      reasons := ["No HTML content available"], is_suspicious := false,
      confidence := "LOW" }
  else
    let score : ℚ :=
      (if v.has_password then 0.20 else 0) +
      (if v.has_otp then 0.30 else 0) +
      (if v.has_cc then 0.45 else 0) +
      (if v.has_pan then 0.40 else 0) +
      (if v.has_pin then 0.30 else 0) +
      (if v.has_cred_form then 0.20 else 0) +
      (if v.form_external then 0.55 else 0) +
      (if v.hidden_count > 3 then 0.20 else 0) +
      (if v.dangerous_input_pattern ∧ ¬v.has_cc ∧ ¬v.has_pin then 0.15 else 0) +
      (match v.brandHit with
       | some elementHits => min (0.4 + (elementHits : ℚ) * 0.1) 0.75
       | none => 0) +
      (if v.login_keywords ≥ 2 ∧ v.has_password ∧ ¬v.url_in_legit_set then 0.25 else 0) +
      (if v.is_minimal ∧ v.has_password then 0.25 else 0) +
      (if v.has_iframe then 0.15 else 0) +
      (if v.js_obfuscation then 0.25 else 0) +
      (if v.js_keylogger then 0.60 else 0) +
      (if v.js_clipboard then 0.40 else 0) +
      (if v.right_click_block then 0.15 else 0) +
      (if v.anti_inspect then 0.20 else 0)
    let reasons : List String :=
      (if v.has_password then ["🔑 Password input field detected"] else []) ++
      (if v.has_otp then ["🔢 OTP / one-time code input field detected"] else []) ++
      (if v.has_cc then ["💳 Credit / debit card input field detected — high phishing risk"] else []) ++
      (if v.has_pan then ["🪪 Sensitive ID field (PAN/Aadhaar/SSN) detected"] else []) ++
      (if v.has_pin then ["🔐 PIN input field detected"] else []) ++
      (if v.has_cred_form then ["📋 Credential collection form detected"] else []) ++
      (if v.form_external then ["🚨 Form submits credentials to external domain — data exfiltration risk!"] else []) ++
      (if v.hidden_count > 3 then ["🕵️ Multiple hidden fields — possible data collection"] else []) ++
      (if v.dangerous_input_pattern ∧ ¬v.has_cc ∧ ¬v.has_pin then ["⚠️ Sensitive input pattern detected"] else []) ++
      (if v.brandHit.isSome then ["🏷️ Brand impersonation detected"] else []) ++
      (if v.login_keywords ≥ 2 ∧ v.has_password ∧ ¬v.url_in_legit_set then
        ["🔒 Fake login page fingerprint (login UI on non-legitimate domain)"] else []) ++
      (if v.is_minimal ∧ v.has_password then
        ["📄 Minimal page (no nav/footer) with login form — classic phishing template"] else []) ++
      (if v.has_iframe then ["Iframe embedded — potential content injection"] else []) ++
      (if v.js_obfuscation then ["🔀 Obfuscated JavaScript (eval/atob/fromCharCode)"] else []) ++
      (if v.js_keylogger then ["⌨️ Keylogger pattern detected in JavaScript!"] else []) ++
      (if v.js_clipboard then ["📋 Clipboard access detected — possible crypto wallet drainer"] else []) ++
      (if v.right_click_block then ["Right-click disabled on page"] else []) ++
      (if v.anti_inspect then ["🚫 Anti-inspection measures detected"] else [])
    let finalScore := roundScore (min (max score 0) 1)
    { engine := "visual_engine", score := finalScore, reasons := reasons,
      is_suspicious := decide (finalScore > 0.5),
      confidence :=
        if finalScore > 0.75 then "HIGH"
        else if finalScore > 0.4 then "MEDIUM"
        else "LOW" }

lemma visualAnalyze_score_bounds (v : VisualSignals) :
    0 ≤ (visualAnalyze v).score ∧ (visualAnalyze v).score ≤ 1 := by
  unfold visualAnalyze
  split
  · norm_num
  · simp only []
    constructor
    · exact roundScore_nonneg (le_min (le_max_right _ _) (by norm_num))
    · exact roundScore_le_one (min_le_right _ _)

lemma visualAnalyze_susp (v : VisualSignals) :
    (visualAnalyze v).is_suspicious = decide ((visualAnalyze v).score > 0.5) := by
  unfold visualAnalyze
  split
  · norm_num
  · rfl

lemma calculateRisk_score_bounds (l : List EngineResult) :
    0 ≤ (calculateRisk l).risk_score ∧ (calculateRisk l).risk_score ≤ 1 := by
  simp only [calculateRisk]
  constructor
  · refine roundScore_nonneg (le_min ?_ (by norm_num))
    exact le_trans (by norm_num) (le_max_right _ _)
  · refine roundScore_le_one ?_
    exact le_trans (min_le_right _ _) (by norm_num)

/- ======================================================================
   Cross-engine claims C1 and C3
   ====================================================================== -/

/-- C1: every engine's returned score lies in [0, 1] — even after the
amplification multipliers (URL ×1.5/×1.3, NLP ×1.5/×1.4/×1.3, aggregator
×1.2), since every pipeline clamps before rounding, the URL fallback returns
0.5, and the domain engine's max-accumulated constants never exceed 0.9. -/
theorem c1_scores_in_range :
    (∀ ef : Option URLFeatures,
      0 ≤ (urlAnalyze ef).score ∧ (urlAnalyze ef).score ≤ 1) ∧
    (∀ (legit : List (List Char)) (d : List Char),
      0 ≤ (domainAnalyze legit d).score ∧ (domainAnalyze legit d).score ≤ 1) ∧
    (∀ (c : NLPCats) (ct : ContentType),
      0 ≤ (nlpAnalyze c ct).score ∧ (nlpAnalyze c ct).score ≤ 1) ∧
    (∀ v : VisualSignals,
      0 ≤ (visualAnalyze v).score ∧ (visualAnalyze v).score ≤ 1) ∧
    (∀ l : List EngineResult,
      0 ≤ (calculateRisk l).risk_score ∧ (calculateRisk l).risk_score ≤ 1) :=
  ⟨urlAnalyze_score_bounds, domainAnalyze_score_bounds, nlpAnalyze_score_bounds,
   visualAnalyze_score_bounds, calculateRisk_score_bounds⟩

/-- C3 counterexample: the URL engine's internal-failure fallback returns
score exactly 0.5 with `is_suspicious` hardcoded to `True`, contradicting
`is_suspicious = (score > 0.5)` there. -/
theorem c3_counterexample_fallback :
    (urlAnalyze none).score = 0.5 ∧
    (urlAnalyze none).is_suspicious = true ∧
    decide ((urlAnalyze none).score > 0.5) = false := by
  refine ⟨rfl, rfl, ?_⟩
  norm_num [urlAnalyze]

/-- C3 (corrected): on every normal path of every engine the returned
`is_suspicious` equals `score > 0.5` (for the URL and domain engines the
comparison is computed before rounding, but the reachable score grids make
this equal to comparing the returned, rounded score); the URL engine's
internal-failure fallback instead hardcodes `is_suspicious = true` while
returning score exactly 0.5. -/
theorem c3_suspicious_flag :
    (∀ f : URLFeatures,
      (urlAnalyze (some f)).is_suspicious
        = decide ((urlAnalyze (some f)).score > 0.5)) ∧
    ((urlAnalyze none).score = 0.5 ∧ (urlAnalyze none).is_suspicious = true) ∧
    (∀ (legit : List (List Char)) (d : List Char),
      (domainAnalyze legit d).is_suspicious
        = decide ((domainAnalyze legit d).score > 0.5)) ∧
    (∀ (c : NLPCats) (ct : ContentType),
      (nlpAnalyze c ct).is_suspicious = decide ((nlpAnalyze c ct).score > 0.5)) ∧
    (∀ v : VisualSignals,
      (visualAnalyze v).is_suspicious = decide ((visualAnalyze v).score > 0.5)) :=
  ⟨urlAnalyze_some_susp, ⟨rfl, rfl⟩, domainAnalyze_susp, nlpAnalyze_susp,
   visualAnalyze_susp⟩
